import Mathlib

/-!
Verification development for a QMK userspace keymap: shallow embeddings of the
tap-hold resolver (achordion.c), the repeat key engine (repeat_key.c), the
sentence-case state machine (sentence_case.c), the select-word macro
(select_word.c) and the custom shift key remapper (custom_shift_keys.c),
together with theorems about their behaviour.
-/

namespace QmkKeymap

/-! ## Basic event model (QMK keyrecord_t) -/

/-- Matrix position of a key (`keypos_t`). -/
structure KeyPos where
  row : Nat
  col : Nat
deriving DecidableEq, Repr

/-- A key transition event (`keyevent_t`): position, direction, 16-bit time. -/
structure KeyEvent where
  key : KeyPos
  pressed : Bool
  time : Nat
deriving DecidableEq, Repr

/-- The tap information of a record (`record->tap.count`). -/
structure TapInfo where
  count : Nat
deriving DecidableEq, Repr

/-- A key record (`keyrecord_t`): the event plus tap info. -/
structure KeyRecord where
  event : KeyEvent
  tap : TapInfo
deriving DecidableEq, Repr

/-! ## Keycode constants (QMK values) -/

def KC_NO : Nat := 0x0000
def KC_A : Nat := 0x04
def KC_C : Nat := 0x06
def KC_D : Nat := 0x07
def KC_E : Nat := 0x08
def KC_H : Nat := 0x0B
def KC_K : Nat := 0x0E
def KC_L : Nat := 0x0F
def KC_O : Nat := 0x12
def KC_R : Nat := 0x15
def KC_S : Nat := 0x16
def KC_T : Nat := 0x17
def KC_V : Nat := 0x19
def KC_W : Nat := 0x1A
def KC_Z : Nat := 0x1D
def KC_1 : Nat := 0x1E
def KC_ESC : Nat := 0x29
def KC_SPC : Nat := 0x2C
def KC_DOT : Nat := 0x37
def KC_SLSH : Nat := 0x38
def KC_HOME : Nat := 0x4A
def KC_END : Nat := 0x4D
def KC_RGHT : Nat := 0x4F
def KC_LEFT : Nat := 0x50
def KC_DOWN : Nat := 0x51
def KC_UP : Nat := 0x52
def KC_LCTL : Nat := 0xE0
def KC_LSFT : Nat := 0xE1
def KC_RSFT : Nat := 0xE5
def KC_RGUI : Nat := 0xE7

/-- `KC_QUES` = `S(KC_SLSH)`. -/
def KC_QUES : Nat := 0x0238
/-- `KC_EXLM` = `S(KC_1)`. -/
def KC_EXLM : Nat := 0x021E

def QK_MOD_TAP : Nat := 0x2000
def QK_MOD_TAP_MAX : Nat := 0x3FFF
def QK_LAYER_TAP : Nat := 0x4000
def QK_LAYER_TAP_MAX : Nat := 0x4FFF
def QK_TO : Nat := 0x5200
def QK_TO_MAX : Nat := 0x521F
def QK_MOMENTARY : Nat := 0x5220
def QK_MOMENTARY_MAX : Nat := 0x523F
def QK_TOGGLE_LAYER : Nat := 0x5260
def QK_TOGGLE_LAYER_MAX : Nat := 0x527F
def QK_ONE_SHOT_LAYER : Nat := 0x5280
def QK_ONE_SHOT_LAYER_MAX : Nat := 0x529F
def QK_ONE_SHOT_MOD : Nat := 0x52A0
def QK_ONE_SHOT_MOD_MAX : Nat := 0x52BF
def QK_LAYER_TAP_TOGGLE : Nat := 0x52C0
def QK_LAYER_TAP_TOGGLE_MAX : Nat := 0x52DF

/-- `OSM(MOD_LSFT)`. -/
def OSM_MOD_LSFT : Nat := 0x52A2
/-- `OSM(MOD_RSFT)`. -/
def OSM_MOD_RSFT : Nat := 0x52B2

/-- 5-bit modifier masks (`MOD_MASK_SHIFT`, `MOD_BIT(...)`). -/
def MOD_BIT_LCTL : Nat := 0x01
def MOD_BIT_LSFT : Nat := 0x02
def MOD_BIT_LALT : Nat := 0x04
def MOD_BIT_RALT : Nat := 0x40
def MOD_MASK_SHIFT : Nat := 0x22

/-- Bitwise "and not": clears in `x` the bits of `m` (`x & ~m`). -/
def andNot (x m : Nat) : Nat := x - x.land m

/-- QMK `timer_expired(current, future)`: wraparound-safe 16-bit comparison
`(uint16_t)(current - future) < 0x8000`. -/
def timerExpired (current future : Nat) : Bool :=
  ((current % 65536) + 65536 - (future % 65536)) % 65536 < 0x8000

/-! ## Tap-hold resolver (src/features/achordion.c) -/

/-- Whether `kc` is a mod-tap or layer-tap keycode (`is_tap_hold` in
`process_achordion`). -/
def isTapHoldKc (kc : Nat) : Prop :=
  (QK_MOD_TAP ≤ kc ∧ kc ≤ QK_MOD_TAP_MAX) ∨
    (QK_LAYER_TAP ≤ kc ∧ kc ≤ QK_LAYER_TAP_MAX)

instance : DecidablePred isTapHoldKc := fun kc => by
  unfold isTapHoldKc; infer_instance

/-- Whether `kc` is in the mod-tap range. -/
def isModTapKc (kc : Nat) : Prop := QK_MOD_TAP ≤ kc ∧ kc ≤ QK_MOD_TAP_MAX

instance : DecidablePred isModTapKc := fun kc => by
  unfold isModTapKc; infer_instance

/-- `is_physical_pos`: rows/cols ≥ 254 mark virtual (combo) events. -/
def isPhysicalPos (p : KeyPos) : Prop := p.row < 254 ∧ p.col < 254

instance : DecidablePred isPhysicalPos := fun p => by
  unfold isPhysicalPos; infer_instance

/-- The mods extracted from a mod-tap keycode in `apply_hold_action`:
`(keycode >> 8) & 0xf`, shifted left by 4 when bit 0x1000 is set. -/
def modTapMods (kc : Nat) : Nat :=
  let m := (kc >>> 8).land 0xf
  if kc.land 0x1000 ≠ 0 then m <<< 4 else m

/-- The layer extracted from a layer-tap keycode in `apply_hold_action`. -/
def layerTapLayer (kc : Nat) : Nat := (kc >>> 8).land 0xf

/-- The static state of achordion.c. -/
structure AchordionState where
  tap_hold_record : KeyRecord
  tap_hold_keycode : Nat
  hold_timer : Nat
  hold_mods : Nat
  hold_layer : Nat
  settled : Bool
deriving DecidableEq, Repr

/-- Initial (zero-initialized) achordion state. -/
def achInit : AchordionState :=
  { tap_hold_record := ⟨⟨⟨0, 0⟩, false, 0⟩, ⟨0⟩⟩
    tap_hold_keycode := KC_NO
    hold_timer := 0
    hold_mods := 0
    hold_layer := 0
    settled := false }

/-- Observable host actions performed while processing achordion events. -/
inductive AchAction where
  | registerMods (mods : Nat)
  | unregisterMods (mods : Nat)
  | layerOn (layer : Nat)
  | layerOff (layer : Nat)
  /-- `process_achordion` returned true: the event falls through to default
  handling by the rest of the pipeline. -/
  | defaultHandle (keycode : Nat) (record : KeyRecord)
deriving DecidableEq, Repr

/-- The host side observed by achordion: the action trace, plus the maximal
re-injection depth ever reached (0 = only top-level calls). -/
structure AchHost where
  outputs : List AchAction
  maxDepth : Nat
deriving DecidableEq, Repr

def achHostInit : AchHost := ⟨[], 0⟩

/-- Configuration: the keymap lookup used by `process_record` to recover a
keycode from a record, the per-key timeout `achordion_timeout`, and the
decision callback `achordion_chord`. -/
structure AchCfg where
  keyAt : KeyPos → Nat
  timeout : Nat → Nat
  chord : Nat → KeyRecord → Nat → KeyRecord → Bool

/-- `apply_hold_action()`: registers the mods of a mod-tap hold, or activates
the layer of a layer-tap hold. -/
def applyHoldAction (s : AchordionState) (h : AchHost) : AchordionState × AchHost :=
  if isModTapKc s.tap_hold_keycode then
    let hm := modTapMods s.tap_hold_keycode
    ({ s with hold_mods := hm }, { h with outputs := h.outputs ++ [.registerMods hm] })
  else
    let hl := layerTapLayer s.tap_hold_keycode
    ({ s with hold_layer := hl }, { h with outputs := h.outputs ++ [.layerOn hl] })

/-- `clear_hold_action()`: clears the mods or layer set by `apply_hold_action`. -/
def clearHoldAction (s : AchordionState) (h : AchHost) : AchordionState × AchHost :=
  if s.hold_mods ≠ 0 then
    ({ s with hold_mods := 0 },
     { h with outputs := h.outputs ++ [.unregisterMods s.hold_mods] })
  else if s.hold_layer ≠ 0 then
    ({ s with hold_layer := 0 },
     { h with outputs := h.outputs ++ [.layerOff s.hold_layer] })
  else (s, h)

/-- One `process_record` call of the pipeline around `process_achordion`.
`fuel` bounds nesting (the C recursion is guarded by `settled`); `depth` is
the current re-injection depth, recorded into `maxDepth` on entry.  When
`process_achordion` returns true the event falls through to default handling,
recorded as a `defaultHandle` action. -/
def processRecord : Nat → AchCfg → KeyRecord → AchordionState → AchHost → Nat →
    AchordionState × AchHost
  | 0, _, _, s, h, depth => (s, { h with maxDepth := max h.maxDepth depth })
  | fuel + 1, cfg, record, s, h, depth =>
    let h := { h with maxDepth := max h.maxDepth depth }
    let keycode := cfg.keyAt record.event.key
    if s.tap_hold_keycode = KC_NO then
      if record.event.pressed = true ∧ isPhysicalPos record.event.key ∧
          isTapHoldKc keycode ∧ record.tap.count = 0 ∧ 0 < cfg.timeout keycode then
        -- A held tap-hold key press is captured; default handling skipped.
        ({ s with settled := false
                  tap_hold_keycode := keycode
                  tap_hold_record := record
                  hold_timer := (record.event.time + cfg.timeout keycode) % 65536 }, h)
      else
        (s, { h with outputs := h.outputs ++ [.defaultHandle keycode record] })
    else if keycode = s.tap_hold_keycode ∧ record.event.pressed = false then
      -- The active tap-hold key is being released.
      clearHoldAction { s with tap_hold_keycode := KC_NO } h
    else if s.settled = false ∧ record.event.pressed = true then
      -- A press on another key settles the tap-hold decision.
      let s := { s with settled := true }
      let sh :=
        if (¬ isPhysicalPos record.event.key) ∨
            (isTapHoldKc keycode ∧ record.tap.count = 0) ∨
            cfg.chord s.tap_hold_keycode s.tap_hold_record keycode record = true then
          applyHoldAction s h
        else
          -- Revise the pending event as a tap and replay press then release.
          let thr := { s.tap_hold_record with tap := ⟨1⟩ }
          let s := { s with tap_hold_record := thr }
          let (s, h) := processRecord fuel cfg thr s h (depth + 1)
          let thr2 := { s.tap_hold_record with
                        event := { s.tap_hold_record.event with pressed := false } }
          let s := { s with tap_hold_record := thr2 }
          processRecord fuel cfg thr2 s h (depth + 1)
      -- Re-process the settling event itself.
      processRecord fuel cfg record sh.1 sh.2 (depth + 1)
    else
      (s, { h with outputs := h.outputs ++ [.defaultHandle keycode record] })

/-- `achordion_task()`: once the timeout expires with the decision unsettled,
settle as held. -/
def achordionTask (now : Nat) (s : AchordionState) (h : AchHost) :
    AchordionState × AchHost :=
  if s.settled = false ∧ timerExpired now s.hold_timer = true then
    applyHoldAction { s with settled := true } h
  else (s, h)

/-- An input to the achordion pipeline: a key event, or a poll tick of
`achordion_task` at a given timer value. -/
inductive AchEvent where
  | key (record : KeyRecord)
  | tick (now : Nat)
deriving DecidableEq, Repr

/-- Process one input. Top-level key events run at depth 0 with fuel 2 (one
level of guarded re-injection; the depth-1 bound is proved below). -/
def achStep (cfg : AchCfg) (s : AchordionState) (h : AchHost) (e : AchEvent) :
    AchordionState × AchHost :=
  match e with
  | .key record => processRecord 2 cfg record s h 0
  | .tick now => achordionTask now s h

/-- Run a list of inputs from the initial state. -/
def achRun (cfg : AchCfg) (es : List AchEvent) : AchordionState × AchHost :=
  es.foldl (fun sh e => achStep cfg sh.1 sh.2 e) (achInit, achHostInit)

/-- A "tap meaning" emission: default handling of a pressed tap-hold event
whose tap count is nonzero (QMK performs the tap keycode press). -/
def isTapEmission (a : AchAction) : Bool :=
  match a with
  | .defaultHandle kc rec =>
    decide (isTapHoldKc kc) && decide (rec.tap.count ≠ 0) && rec.event.pressed
  | _ => false

/-- A "hold meaning" application: mods registered or layer activated. -/
def isHoldApplication (a : AchAction) : Bool :=
  match a with
  | .registerMods _ => true
  | .layerOn _ => true
  | _ => false

def countTapEmissions (l : List AchAction) : Nat := (l.filter isTapEmission).length

def countHoldApplications (l : List AchAction) : Nat :=
  (l.filter isHoldApplication).length

/-- `on_left_hand` of achordion.c, parameterized by the keyboard shape. -/
def onLeftHand (split : Bool) (rows cols : Nat) (pos : KeyPos) : Bool :=
  if split then decide (pos.row < rows / 2)
  else if cols > rows then decide (pos.col < cols / 2)
  else decide (pos.row < rows / 2)

/-- `achordion_opposite_hands`. -/
def achordionOppositeHands (split : Bool) (rows cols : Nat)
    (tapHoldRecord otherRecord : KeyRecord) : Bool :=
  onLeftHand split rows cols tapHoldRecord.event.key ≠
    onLeftHand split rows cols otherRecord.event.key

/-- The single action emitted by `apply_hold_action` for a tap-hold keycode. -/
def holdActionOf (kc : Nat) : AchAction :=
  if isModTapKc kc then .registerMods (modTapMods kc) else .layerOn (layerTapLayer kc)

/-! ### Step lemmas for `processRecord` -/

theorem applyHoldAction_eq (s : AchordionState) (h : AchHost) :
    applyHoldAction s h =
      ((if isModTapKc s.tap_hold_keycode then
          { s with hold_mods := modTapMods s.tap_hold_keycode }
        else { s with hold_layer := layerTapLayer s.tap_hold_keycode }),
       { h with outputs := h.outputs ++ [holdActionOf s.tap_hold_keycode] }) := by
  unfold applyHoldAction holdActionOf
  split_ifs <;> rfl

/-- Capture step: an unhandled held tap-hold press with positive timeout is
captured and default handling is skipped. -/
theorem pr_capture (fuel : Nat) (cfg : AchCfg) (rec : KeyRecord)
    (s : AchordionState) (h : AchHost) (d : Nat) (hf : fuel ≠ 0)
    (h0 : s.tap_hold_keycode = KC_NO)
    (hp : rec.event.pressed = true) (hphys : isPhysicalPos rec.event.key)
    (hth : isTapHoldKc (cfg.keyAt rec.event.key)) (hc : rec.tap.count = 0)
    (htm : 0 < cfg.timeout (cfg.keyAt rec.event.key)) :
    processRecord fuel cfg rec s h d =
      ({ s with settled := false
                tap_hold_keycode := cfg.keyAt rec.event.key
                tap_hold_record := rec
                hold_timer := (rec.event.time + cfg.timeout (cfg.keyAt rec.event.key)) % 65536 },
       { h with maxDepth := max h.maxDepth d }) := by
  cases fuel with
  | zero => exact absurd rfl hf
  | succ f =>
    unfold processRecord
    rw [if_pos h0, if_pos ⟨hp, hphys, hth, hc, htm⟩]

/-- Default step while idle: no pending key and the event is not captured. -/
theorem pr_default (fuel : Nat) (cfg : AchCfg) (rec : KeyRecord)
    (s : AchordionState) (h : AchHost) (d : Nat) (hf : fuel ≠ 0)
    (h0 : s.tap_hold_keycode = KC_NO)
    (hno : ¬ (rec.event.pressed = true ∧ isPhysicalPos rec.event.key ∧
        isTapHoldKc (cfg.keyAt rec.event.key) ∧ rec.tap.count = 0 ∧
        0 < cfg.timeout (cfg.keyAt rec.event.key))) :
    processRecord fuel cfg rec s h d =
      (s, { h with maxDepth := max h.maxDepth d
                   outputs := h.outputs ++ [.defaultHandle (cfg.keyAt rec.event.key) rec] }) := by
  cases fuel with
  | zero => exact absurd rfl hf
  | succ f =>
    unfold processRecord
    rw [if_pos h0, if_neg hno]

/-- Release of the active tap-hold key: clear state, swallow the event. -/
theorem pr_release (fuel : Nat) (cfg : AchCfg) (rec : KeyRecord)
    (s : AchordionState) (h : AchHost) (d : Nat) (hf : fuel ≠ 0)
    (h0 : ¬ s.tap_hold_keycode = KC_NO)
    (heq : cfg.keyAt rec.event.key = s.tap_hold_keycode)
    (hp : rec.event.pressed = false) :
    processRecord fuel cfg rec s h d =
      clearHoldAction { s with tap_hold_keycode := KC_NO }
        { h with maxDepth := max h.maxDepth d } := by
  cases fuel with
  | zero => exact absurd rfl hf
  | succ f =>
    unfold processRecord
    rw [if_neg h0, if_pos ⟨heq, hp⟩]

/-- Pass-through while a tap-hold key is pending: not its release and not a
settling press (already settled, or a release of another key). -/
theorem pr_passthrough (fuel : Nat) (cfg : AchCfg) (rec : KeyRecord)
    (s : AchordionState) (h : AchHost) (d : Nat) (hf : fuel ≠ 0)
    (h0 : ¬ s.tap_hold_keycode = KC_NO)
    (hrel : ¬ (cfg.keyAt rec.event.key = s.tap_hold_keycode ∧ rec.event.pressed = false))
    (hset : ¬ (s.settled = false ∧ rec.event.pressed = true)) :
    processRecord fuel cfg rec s h d =
      (s, { h with maxDepth := max h.maxDepth d
                   outputs := h.outputs ++ [.defaultHandle (cfg.keyAt rec.event.key) rec] }) := by
  cases fuel with
  | zero => exact absurd rfl hf
  | succ f =>
    unfold processRecord
    rw [if_neg h0, if_neg hrel, if_neg hset]

/-- Settling press resolved as hold: apply the hold action, then re-process
the settling event at depth + 1. -/
theorem pr_settle_hold (fuel : Nat) (cfg : AchCfg) (rec : KeyRecord)
    (s : AchordionState) (h : AchHost) (d : Nat) (hf : fuel ≠ 0)
    (h0 : ¬ s.tap_hold_keycode = KC_NO)
    (hrel : ¬ (cfg.keyAt rec.event.key = s.tap_hold_keycode ∧ rec.event.pressed = false))
    (hset : s.settled = false) (hp : rec.event.pressed = true)
    (hcond : (¬ isPhysicalPos rec.event.key) ∨
      (isTapHoldKc (cfg.keyAt rec.event.key) ∧ rec.tap.count = 0) ∨
      cfg.chord s.tap_hold_keycode s.tap_hold_record (cfg.keyAt rec.event.key) rec = true) :
    processRecord fuel cfg rec s h d =
      (let sh := applyHoldAction { s with settled := true }
         { h with maxDepth := max h.maxDepth d }
       processRecord (fuel - 1) cfg rec sh.1 sh.2 (d + 1)) := by
  cases fuel with
  | zero => exact absurd rfl hf
  | succ f =>
    simp only [Nat.add_sub_cancel]
    conv_lhs => unfold processRecord
    rw [if_neg h0, if_neg hrel, if_pos ⟨hset, hp⟩]
    dsimp only
    rw [if_pos hcond]

/-- Settling press resolved as tap: replay the pending key's tap press and
release at depth + 1, then re-process the settling event at depth + 1. -/
theorem pr_settle_tap (fuel : Nat) (cfg : AchCfg) (rec : KeyRecord)
    (s : AchordionState) (h : AchHost) (d : Nat) (hf : fuel ≠ 0)
    (h0 : ¬ s.tap_hold_keycode = KC_NO)
    (hrel : ¬ (cfg.keyAt rec.event.key = s.tap_hold_keycode ∧ rec.event.pressed = false))
    (hset : s.settled = false) (hp : rec.event.pressed = true)
    (hcond : ¬ ((¬ isPhysicalPos rec.event.key) ∨
      (isTapHoldKc (cfg.keyAt rec.event.key) ∧ rec.tap.count = 0) ∨
      cfg.chord s.tap_hold_keycode s.tap_hold_record (cfg.keyAt rec.event.key) rec = true)) :
    processRecord fuel cfg rec s h d =
      (let s1 := { s with settled := true }
       let thr := { s1.tap_hold_record with tap := ⟨1⟩ }
       let s2 := { s1 with tap_hold_record := thr }
       let sh1 := processRecord (fuel - 1) cfg thr s2
         { h with maxDepth := max h.maxDepth d } (d + 1)
       let thr2 := { sh1.1.tap_hold_record with
                     event := { sh1.1.tap_hold_record.event with pressed := false } }
       let s3 := { sh1.1 with tap_hold_record := thr2 }
       let sh2 := processRecord (fuel - 1) cfg thr2 s3 sh1.2 (d + 1)
       processRecord (fuel - 1) cfg rec sh2.1 sh2.2 (d + 1)) := by
  cases fuel with
  | zero => exact absurd rfl hf
  | succ f =>
    simp only [Nat.add_sub_cancel]
    conv_lhs => unfold processRecord
    rw [if_neg h0, if_neg hrel, if_pos ⟨hset, hp⟩]
    dsimp only
    rw [if_neg hcond]

/-! ### Helper lemmas -/

theorem isTapHoldKc_ne_no {k : Nat} (h : isTapHoldKc k) : ¬ k = KC_NO := by
  rcases h with ⟨h1, _⟩ | ⟨h1, _⟩ <;>
    · intro hk
      rw [hk] at h1
      norm_num [KC_NO, QK_MOD_TAP, QK_LAYER_TAP] at h1

theorem countTapEmissions_append (l1 l2 : List AchAction) :
    countTapEmissions (l1 ++ l2) = countTapEmissions l1 + countTapEmissions l2 := by
  simp [countTapEmissions]

theorem countHoldApplications_append (l1 l2 : List AchAction) :
    countHoldApplications (l1 ++ l2) =
      countHoldApplications l1 + countHoldApplications l2 := by
  simp [countHoldApplications]

theorem countTapEmissions_holdActionOf (kc : Nat) :
    countTapEmissions [holdActionOf kc] = 0 := by
  unfold holdActionOf
  split_ifs <;> rfl

theorem countHoldApplications_holdActionOf (kc : Nat) :
    countHoldApplications [holdActionOf kc] = 1 := by
  unfold holdActionOf
  split_ifs <;> rfl

/-- `clear_hold_action` emits no tap emission and no hold application. -/
theorem clearHold_counts (s : AchordionState) (h : AchHost) :
    countTapEmissions (clearHoldAction s h).2.outputs = countTapEmissions h.outputs ∧
    countHoldApplications (clearHoldAction s h).2.outputs =
      countHoldApplications h.outputs := by
  unfold clearHoldAction
  split_ifs <;>
    simp [countTapEmissions_append, countHoldApplications_append,
      countTapEmissions, countHoldApplications, isTapEmission, isHoldApplication]

theorem clearHold_of_zero (s : AchordionState) (h : AchHost)
    (hm : s.hold_mods = 0) (hl : s.hold_layer = 0) :
    clearHoldAction s h = (s, h) := by
  unfold clearHoldAction
  rw [if_neg (by simp [hm]), if_neg (by simp [hl])]

theorem achStep_key (cfg : AchCfg) (s : AchordionState) (h : AchHost)
    (rec : KeyRecord) :
    achStep cfg s h (.key rec) = processRecord 2 cfg rec s h 0 := rfl

theorem achStep_tick (cfg : AchCfg) (s : AchordionState) (h : AchHost)
    (now : Nat) :
    achStep cfg s h (.tick now) = achordionTask now s h := rfl

/-! ### Concrete configuration for witnesses -/

/-- `MT(MOD_LCTL, KC_D)`: mod-tap with tap `KC_D`, hold Left Ctrl. -/
def MT_CTL_D : Nat := 0x2107

/-- Matrix position of the `MT_CTL_D` key (left hand on a split board
with 12 rows). -/
def posD : KeyPos := ⟨1, 3⟩

/-- Matrix position of the plain `KC_K` key (right hand). -/
def posK : KeyPos := ⟨6, 3⟩

/-- Matrix position of a second left-hand key carrying `KC_V`. -/
def posV : KeyPos := ⟨2, 4⟩

/-- A concrete configuration: a split 12×7 board with the default
opposite-hands `achordion_chord` and an 800 ms timeout for every key. -/
def cfg0 : AchCfg :=
  { keyAt := fun p =>
      if p = posD then MT_CTL_D else if p = posK then KC_K
      else if p = posV then KC_V else KC_NO
    timeout := fun _ => 800
    chord := fun _ r1 _ r2 => achordionOppositeHands true 12 7 r1 r2 }

/-! ### C1 -/

/-- C1, counterexample.  The claim asserts that for every sequence of one
dual-role key press followed by its release with no intervening key event,
the tap meaning is emitted exactly once.  Pressing `MT(MOD_LCTL, KC_D)` in
the state where QMK classified it as held (`tap.count = 0`, so the resolver
captures it) and releasing it before the timeout emits the tap meaning zero
times, not once: the resolver swallows both events and produces nothing. -/
theorem achordion_c1_counterexample :
    ¬ countTapEmissions (achRun cfg0
        [.key ⟨⟨posD, true, 0⟩, ⟨0⟩⟩, .key ⟨⟨posD, false, 100⟩, ⟨0⟩⟩]).2.outputs = 1 := by
  decide

/-- C1 (amended): per press-release pair of a tap-hold key with no intervening
key press, the resolver never applies the hold meaning and never emits both
meanings.  A quick tap (QMK tap count nonzero, resolver not engaged) emits the
tap meaning exactly once; a captured held press (tap count 0) released before
the timeout emits neither meaning; a captured press whose timeout expires
before release gets the hold meaning exactly once and no tap. -/
theorem achordion_c1_amended (cfg : AchCfg) (p : KeyPos) (c t1 t2 texp : Nat)
    (hphys : isPhysicalPos p) (hth : isTapHoldKc (cfg.keyAt p))
    (htm : 0 < cfg.timeout (cfg.keyAt p)) :
    countHoldApplications (achRun cfg
        [.key ⟨⟨p, true, t1⟩, ⟨c⟩⟩, .key ⟨⟨p, false, t2⟩, ⟨c⟩⟩]).2.outputs = 0 ∧
    (c ≠ 0 → countTapEmissions (achRun cfg
        [.key ⟨⟨p, true, t1⟩, ⟨c⟩⟩, .key ⟨⟨p, false, t2⟩, ⟨c⟩⟩]).2.outputs = 1) ∧
    (c = 0 → (achRun cfg
        [.key ⟨⟨p, true, t1⟩, ⟨c⟩⟩, .key ⟨⟨p, false, t2⟩, ⟨c⟩⟩]).2.outputs = []) ∧
    (timerExpired texp ((t1 + cfg.timeout (cfg.keyAt p)) % 65536) = true →
      countTapEmissions (achRun cfg
          [.key ⟨⟨p, true, t1⟩, ⟨0⟩⟩, .tick texp, .key ⟨⟨p, false, t2⟩, ⟨0⟩⟩]).2.outputs = 0 ∧
      countHoldApplications (achRun cfg
          [.key ⟨⟨p, true, t1⟩, ⟨0⟩⟩, .tick texp, .key ⟨⟨p, false, t2⟩, ⟨0⟩⟩]).2.outputs = 1) := by
  have hrun0 : (achRun cfg [.key ⟨⟨p, true, t1⟩, ⟨0⟩⟩, .key ⟨⟨p, false, t2⟩, ⟨0⟩⟩]).2.outputs
      = [] := by
    simp only [achRun, List.foldl, achStep_key]
    rw [pr_capture 2 cfg _ achInit achHostInit 0 (by decide) rfl rfl hphys hth rfl htm]
    dsimp only
    rw [pr_release 2 cfg _ _ _ 0 (by decide) (isTapHoldKc_ne_no hth) rfl rfl]
    rw [clearHold_of_zero _ _ rfl rfl]
    rfl
  have hrunpos : ¬ c = 0 → (achRun cfg
      [.key ⟨⟨p, true, t1⟩, ⟨c⟩⟩, .key ⟨⟨p, false, t2⟩, ⟨c⟩⟩]).2.outputs
      = [.defaultHandle (cfg.keyAt p) ⟨⟨p, true, t1⟩, ⟨c⟩⟩,
         .defaultHandle (cfg.keyAt p) ⟨⟨p, false, t2⟩, ⟨c⟩⟩] := by
    intro hc
    simp only [achRun, List.foldl, achStep_key]
    rw [pr_default 2 cfg _ achInit achHostInit 0 (by decide) rfl
      (fun hcontra => hc hcontra.2.2.2.1)]
    dsimp only
    rw [pr_default 2 cfg _ _ _ 0 (by decide) rfl
      (fun hcontra => Bool.noConfusion hcontra.1)]
    rfl
  refine ⟨?_, ?_, ?_, ?_⟩
  · by_cases hc : c = 0
    · subst hc
      rw [hrun0]
      rfl
    · rw [hrunpos hc]
      rfl
  · intro hc
    rw [hrunpos hc]
    simp [countTapEmissions, isTapEmission, List.filter, hth, hc]
  · intro hc
    subst hc
    exact hrun0
  · intro hexp
    have hrun2 : (achRun cfg
        [.key ⟨⟨p, true, t1⟩, ⟨0⟩⟩, .tick texp, .key ⟨⟨p, false, t2⟩, ⟨0⟩⟩]).2
        = (clearHoldAction
            { (if isModTapKc (cfg.keyAt p) then
                { achInit with
                  settled := true
                  tap_hold_keycode := cfg.keyAt p
                  tap_hold_record := (⟨⟨p, true, t1⟩, ⟨0⟩⟩ : KeyRecord)
                  hold_timer := (t1 + cfg.timeout (cfg.keyAt p)) % 65536
                  hold_mods := modTapMods (cfg.keyAt p) }
              else
                { achInit with
                  settled := true
                  tap_hold_keycode := cfg.keyAt p
                  tap_hold_record := (⟨⟨p, true, t1⟩, ⟨0⟩⟩ : KeyRecord)
                  hold_timer := (t1 + cfg.timeout (cfg.keyAt p)) % 65536
                  hold_layer := layerTapLayer (cfg.keyAt p) }) with
              tap_hold_keycode := KC_NO }
            { outputs := [holdActionOf (cfg.keyAt p)], maxDepth := 0 }).2 := by
      simp only [achRun, List.foldl, achStep_key, achStep_tick]
      rw [pr_capture 2 cfg _ achInit achHostInit 0 (by decide) rfl rfl hphys hth rfl htm]
      dsimp only
      unfold achordionTask
      rw [if_pos ⟨rfl, hexp⟩, applyHoldAction_eq]
      dsimp only
      rw [pr_release 2 cfg _ _ _ 0 (by decide)
        (by split_ifs <;> exact isTapHoldKc_ne_no hth)
        (by split_ifs <;> rfl) rfl]
      split_ifs <;> rfl
    rw [hrun2]
    refine ⟨?_, ?_⟩
    · rw [(clearHold_counts _ _).1]
      exact countTapEmissions_holdActionOf _
    · rw [(clearHold_counts _ _).2]
      exact countHoldApplications_holdActionOf _

/-- C1 witness: the amended theorem applied to `cfg0` at the key `posD`. -/
theorem achordion_c1_amended_witness :
    (achRun cfg0
      [.key ⟨⟨posD, true, 0⟩, ⟨0⟩⟩, .key ⟨⟨posD, false, 100⟩, ⟨0⟩⟩]).2.outputs = [] :=
  (achordion_c1_amended cfg0 posD 0 0 100 900 (by decide) (by decide)
    (by decide)).2.2.1 rfl

/-! ### C3 -/

/-- C3: if a tap-hold key with nonzero timeout is pressed and no other key
event occurs, the first poll after the deadline applies the hold meaning
exactly once (the output trace is exactly one hold action, before any
release), and any subsequent poll leaves state and outputs unchanged. -/
theorem achordion_c3 (cfg : AchCfg) (p : KeyPos) (t now now' : Nat)
    (hphys : isPhysicalPos p) (hth : isTapHoldKc (cfg.keyAt p))
    (htm : 0 < cfg.timeout (cfg.keyAt p))
    (hexp : timerExpired now ((t + cfg.timeout (cfg.keyAt p)) % 65536) = true) :
    (achRun cfg [.key ⟨⟨p, true, t⟩, ⟨0⟩⟩, .tick now]).2.outputs
        = [holdActionOf (cfg.keyAt p)] ∧
    (achRun cfg [.key ⟨⟨p, true, t⟩, ⟨0⟩⟩, .tick now]).1.settled = true ∧
    achordionTask now' (achRun cfg [.key ⟨⟨p, true, t⟩, ⟨0⟩⟩, .tick now]).1
        (achRun cfg [.key ⟨⟨p, true, t⟩, ⟨0⟩⟩, .tick now]).2
      = achRun cfg [.key ⟨⟨p, true, t⟩, ⟨0⟩⟩, .tick now] := by
  have hrun : achRun cfg [.key ⟨⟨p, true, t⟩, ⟨0⟩⟩, .tick now]
      = applyHoldAction
          { achInit with
            settled := true
            tap_hold_keycode := cfg.keyAt p
            tap_hold_record := (⟨⟨p, true, t⟩, ⟨0⟩⟩ : KeyRecord)
            hold_timer := (t + cfg.timeout (cfg.keyAt p)) % 65536 }
          { outputs := [], maxDepth := 0 } := by
    simp only [achRun, List.foldl, achStep_key, achStep_tick]
    rw [pr_capture 2 cfg _ achInit achHostInit 0 (by decide) rfl rfl hphys hth rfl htm]
    dsimp only
    unfold achordionTask
    rw [if_pos ⟨rfl, hexp⟩]
    rfl
  rw [hrun, applyHoldAction_eq]
  refine ⟨rfl, ?_, ?_⟩
  · dsimp only
    split_ifs <;> rfl
  · dsimp only
    unfold achordionTask
    rw [if_neg ?hns]
    case hns =>
      split_ifs <;> simp

/-- C3 witness: the theorem applied at the concrete configuration `cfg0`. -/
theorem achordion_c3_witness :
    (achRun cfg0 [.key ⟨⟨posD, true, 0⟩, ⟨0⟩⟩, .tick 900]).2.outputs
      = [holdActionOf (cfg0.keyAt posD)] :=
  (achordion_c3 cfg0 posD 0 900 1500 (by decide) (by decide) (by decide)
    (by decide)).1

/-! ### C2 -/

/-- C2: while a tap-hold key is pending and a second key is pressed, with the
default opposite-hands `achordion_chord` policy: if the two keys are on
opposite hands, the pending key settles as hold (the hold action is applied
and the second key is re-processed under it); if they are on the same hand,
it settles as tap: the pending key's tap press is replayed through the
pipeline and then the second key's event is re-processed, so both keys' tap
behaviour occurs in the original press order, with no hold action applied. -/
theorem achordion_c2 (cfg : AchCfg) (sp : Bool) (rows cols : Nat)
    (pD pK : KeyPos) (tD tK cK : Nat)
    (hchord : ∀ a r1 b r2, cfg.chord a r1 b r2 =
        achordionOppositeHands sp rows cols r1 r2)
    (hphysD : isPhysicalPos pD) (hthD : isTapHoldKc (cfg.keyAt pD))
    (htmD : 0 < cfg.timeout (cfg.keyAt pD))
    (hphysK : isPhysicalPos pK)
    (hKnot : ¬ (isTapHoldKc (cfg.keyAt pK) ∧ cK = 0)) :
    (achordionOppositeHands sp rows cols ⟨⟨pD, true, tD⟩, ⟨0⟩⟩
        ⟨⟨pK, true, tK⟩, ⟨cK⟩⟩ = true →
      (achRun cfg [.key ⟨⟨pD, true, tD⟩, ⟨0⟩⟩, .key ⟨⟨pK, true, tK⟩, ⟨cK⟩⟩]).2.outputs
          = [holdActionOf (cfg.keyAt pD),
             .defaultHandle (cfg.keyAt pK) ⟨⟨pK, true, tK⟩, ⟨cK⟩⟩] ∧
      (achRun cfg [.key ⟨⟨pD, true, tD⟩, ⟨0⟩⟩, .key ⟨⟨pK, true, tK⟩, ⟨cK⟩⟩]).1.settled
          = true ∧
      (achRun cfg [.key ⟨⟨pD, true, tD⟩, ⟨0⟩⟩,
          .key ⟨⟨pK, true, tK⟩, ⟨cK⟩⟩]).1.tap_hold_keycode = cfg.keyAt pD) ∧
    (achordionOppositeHands sp rows cols ⟨⟨pD, true, tD⟩, ⟨0⟩⟩
        ⟨⟨pK, true, tK⟩, ⟨cK⟩⟩ = false →
      (achRun cfg [.key ⟨⟨pD, true, tD⟩, ⟨0⟩⟩, .key ⟨⟨pK, true, tK⟩, ⟨cK⟩⟩]).2.outputs
          = [.defaultHandle (cfg.keyAt pD) ⟨⟨pD, true, tD⟩, ⟨1⟩⟩,
             .defaultHandle (cfg.keyAt pK) ⟨⟨pK, true, tK⟩, ⟨cK⟩⟩] ∧
      countHoldApplications
          (achRun cfg [.key ⟨⟨pD, true, tD⟩, ⟨0⟩⟩,
            .key ⟨⟨pK, true, tK⟩, ⟨cK⟩⟩]).2.outputs = 0 ∧
      (achRun cfg [.key ⟨⟨pD, true, tD⟩, ⟨0⟩⟩, .key ⟨⟨pK, true, tK⟩, ⟨cK⟩⟩]).1.settled
          = true) := by
  constructor
  · intro hopp
    have hrun : achRun cfg [.key ⟨⟨pD, true, tD⟩, ⟨0⟩⟩, .key ⟨⟨pK, true, tK⟩, ⟨cK⟩⟩]
        = ((if isModTapKc (cfg.keyAt pD) then
              { achInit with
                settled := true
                tap_hold_keycode := cfg.keyAt pD
                tap_hold_record := (⟨⟨pD, true, tD⟩, ⟨0⟩⟩ : KeyRecord)
                hold_timer := (tD + cfg.timeout (cfg.keyAt pD)) % 65536
                hold_mods := modTapMods (cfg.keyAt pD) }
            else
              { achInit with
                settled := true
                tap_hold_keycode := cfg.keyAt pD
                tap_hold_record := (⟨⟨pD, true, tD⟩, ⟨0⟩⟩ : KeyRecord)
                hold_timer := (tD + cfg.timeout (cfg.keyAt pD)) % 65536
                hold_layer := layerTapLayer (cfg.keyAt pD) }),
           { outputs := [holdActionOf (cfg.keyAt pD),
               .defaultHandle (cfg.keyAt pK) ⟨⟨pK, true, tK⟩, ⟨cK⟩⟩]
             maxDepth := 1 }) := by
      simp only [achRun, List.foldl, achStep_key]
      rw [pr_capture 2 cfg _ achInit achHostInit 0 (by decide) rfl rfl hphysD hthD rfl htmD]
      dsimp only
      rw [pr_settle_hold 2 cfg _ _ _ 0 (by decide) (isTapHoldKc_ne_no hthD)
        (fun hcontra => Bool.noConfusion hcontra.2) rfl rfl
        (Or.inr (Or.inr (by rw [hchord]; exact hopp)))]
      rw [applyHoldAction_eq]
      dsimp only
      rw [pr_passthrough (2 - 1) cfg _ _ _ 1 (by decide)
        (by split_ifs <;> exact isTapHoldKc_ne_no hthD)
        (fun hcontra => Bool.noConfusion hcontra.2)
        (by split_ifs <;> simp)]
      split_ifs <;> rfl
    rw [hrun]
    refine ⟨rfl, ?_, ?_⟩ <;>
      · dsimp only
        split_ifs <;> rfl
  · intro hopp
    have hrun : achRun cfg [.key ⟨⟨pD, true, tD⟩, ⟨0⟩⟩, .key ⟨⟨pK, true, tK⟩, ⟨cK⟩⟩]
        = ({ achInit with
             settled := true
             tap_hold_keycode := KC_NO
             tap_hold_record := (⟨⟨pD, false, tD⟩, ⟨1⟩⟩ : KeyRecord)
             hold_timer := (tD + cfg.timeout (cfg.keyAt pD)) % 65536 },
           { outputs := [.defaultHandle (cfg.keyAt pD) ⟨⟨pD, true, tD⟩, ⟨1⟩⟩,
               .defaultHandle (cfg.keyAt pK) ⟨⟨pK, true, tK⟩, ⟨cK⟩⟩]
             maxDepth := 1 }) := by
      simp only [achRun, List.foldl, achStep_key]
      rw [pr_capture 2 cfg _ achInit achHostInit 0 (by decide) rfl rfl hphysD hthD rfl htmD]
      dsimp only
      rw [pr_settle_tap 2 cfg _ _ _ 0 (by decide) (isTapHoldKc_ne_no hthD)
        (fun hcontra => Bool.noConfusion hcontra.2) rfl rfl ?hcond]
      case hcond =>
        rintro (hcontra | hcontra | hcontra)
        · exact hcontra hphysK
        · exact hKnot hcontra
        · rw [hchord] at hcontra
          rw [hcontra] at hopp
          exact Bool.noConfusion hopp
      dsimp only
      rw [pr_passthrough (2 - 1) cfg (⟨⟨pD, true, tD⟩, ⟨1⟩⟩ : KeyRecord) _ _ 1
        (by decide) (isTapHoldKc_ne_no hthD)
        (fun hcontra => Bool.noConfusion hcontra.2)
        (fun hcontra => Bool.noConfusion hcontra.1)]
      dsimp only
      rw [pr_release (2 - 1) cfg (⟨⟨pD, false, tD⟩, ⟨1⟩⟩ : KeyRecord) _ _ 1
        (by decide) (isTapHoldKc_ne_no hthD) rfl rfl]
      rw [clearHold_of_zero _ _ rfl rfl]
      dsimp only
      rw [pr_default (2 - 1) cfg (⟨⟨pK, true, tK⟩, ⟨cK⟩⟩ : KeyRecord) _ _ 1
        (by decide) rfl (fun hcontra => hKnot ⟨hcontra.2.2.1, hcontra.2.2.2.1⟩)]
      rfl
    rw [hrun]
    exact ⟨rfl, rfl, rfl⟩

/-- C2 witness: on `cfg0`, pressing `MT(MOD_LCTL, KC_D)` then the
opposite-hand `KC_K` registers the Ctrl hold and re-processes `KC_K`. -/
theorem achordion_c2_witness :
    (achRun cfg0 [.key ⟨⟨posD, true, 0⟩, ⟨0⟩⟩, .key ⟨⟨posK, true, 50⟩, ⟨1⟩⟩]).2.outputs
      = [holdActionOf (cfg0.keyAt posD),
         .defaultHandle (cfg0.keyAt posK) ⟨⟨posK, true, 50⟩, ⟨1⟩⟩] :=
  ((achordion_c2 cfg0 true 12 7 posD posK 0 50 1 (fun _ _ _ _ => rfl)
    (by decide) (by decide) (by decide) (by decide)
    (fun hcontra => by revert hcontra; decide)).1 (by decide)).1

/-! ### C4: bounded re-injection depth (achordion half) -/

theorem clearHold_proj (s : AchordionState) (h : AchHost) :
    (clearHoldAction s h).1.settled = s.settled ∧
    (clearHoldAction s h).2.maxDepth = h.maxDepth := by
  unfold clearHoldAction
  split_ifs <;> exact ⟨rfl, rfl⟩

theorem applyHold_maxDepth (s : AchordionState) (h : AchHost) :
    (applyHoldAction s h).2.maxDepth = h.maxDepth := by
  unfold applyHoldAction
  split_ifs <;> rfl

theorem applyHold_settled (s : AchordionState) (h : AchHost) :
    (applyHoldAction s h).1.settled = s.settled := by
  unfold applyHoldAction
  split_ifs <;> rfl

theorem task_maxDepth (now : Nat) (s : AchordionState) (h : AchHost) :
    (achordionTask now s h).2.maxDepth = h.maxDepth := by
  unfold achordionTask
  split_ifs
  · rw [applyHold_maxDepth]
  · rfl

/-- Once the decision is settled, `process_achordion` re-injects nothing: the
recorded depth does not increase past the entry depth, and the settled flag is
preserved whenever a tap-hold key is still active or the event is a release. -/
theorem pr_settled_facts (fuel : Nat) (cfg : AchCfg) (rec : KeyRecord)
    (s : AchordionState) (h : AchHost) (d : Nat) (hf : fuel ≠ 0)
    (hs : s.settled = true) :
    (processRecord fuel cfg rec s h d).2.maxDepth = max h.maxDepth d ∧
    (¬ s.tap_hold_keycode = KC_NO →
      (processRecord fuel cfg rec s h d).1.settled = true) ∧
    (rec.event.pressed = false →
      (processRecord fuel cfg rec s h d).1.settled = true) := by
  by_cases h1 : s.tap_hold_keycode = KC_NO
  · by_cases h2 : (rec.event.pressed = true ∧ isPhysicalPos rec.event.key ∧
        isTapHoldKc (cfg.keyAt rec.event.key) ∧ rec.tap.count = 0 ∧
        0 < cfg.timeout (cfg.keyAt rec.event.key))
    · rw [pr_capture fuel cfg rec s h d hf h1 h2.1 h2.2.1 h2.2.2.1
        h2.2.2.2.1 h2.2.2.2.2]
      exact ⟨rfl, fun hcontra => absurd h1 hcontra,
        fun hpf => absurd h2.1 (by simp [hpf])⟩
    · rw [pr_default fuel cfg rec s h d hf h1 h2]
      exact ⟨rfl, fun _ => hs, fun _ => hs⟩
  · by_cases h3 : (cfg.keyAt rec.event.key = s.tap_hold_keycode ∧
        rec.event.pressed = false)
    · rw [pr_release fuel cfg rec s h d hf h1 h3.1 h3.2]
      exact ⟨(clearHold_proj _ _).2, fun _ => (clearHold_proj _ _).1.trans hs,
        fun _ => (clearHold_proj _ _).1.trans hs⟩
    · have h4 : ¬ (s.settled = false ∧ rec.event.pressed = true) :=
        fun hcontra => by simp [hs] at hcontra
      rw [pr_passthrough fuel cfg rec s h d hf h1 h3 h4]
      exact ⟨rfl, fun _ => hs, fun _ => hs⟩

/-- One top-level event never pushes the recorded re-injection depth past 1:
the settled flag is raised before any replay, and replayed events find it
raised. -/
theorem pr_top_depth (cfg : AchCfg) (rec : KeyRecord) (s : AchordionState)
    (h : AchHost) :
    (processRecord 2 cfg rec s h 0).2.maxDepth ≤ max h.maxDepth 1 := by
  by_cases h1 : s.tap_hold_keycode = KC_NO
  · by_cases h2 : (rec.event.pressed = true ∧ isPhysicalPos rec.event.key ∧
        isTapHoldKc (cfg.keyAt rec.event.key) ∧ rec.tap.count = 0 ∧
        0 < cfg.timeout (cfg.keyAt rec.event.key))
    · rw [pr_capture 2 cfg rec s h 0 (by decide) h1 h2.1 h2.2.1 h2.2.2.1
        h2.2.2.2.1 h2.2.2.2.2]
      simp
    · rw [pr_default 2 cfg rec s h 0 (by decide) h1 h2]
      simp
  · by_cases h3 : (cfg.keyAt rec.event.key = s.tap_hold_keycode ∧
        rec.event.pressed = false)
    · rw [pr_release 2 cfg rec s h 0 (by decide) h1 h3.1 h3.2,
        (clearHold_proj _ _).2]
      simp
    · by_cases h4 : (s.settled = false ∧ rec.event.pressed = true)
      · by_cases h5 : ((¬ isPhysicalPos rec.event.key) ∨
            (isTapHoldKc (cfg.keyAt rec.event.key) ∧ rec.tap.count = 0) ∨
            cfg.chord s.tap_hold_keycode s.tap_hold_record
              (cfg.keyAt rec.event.key) rec = true)
        · rw [pr_settle_hold 2 cfg rec s h 0 (by decide) h1 h3 h4.1 h4.2 h5]
          dsimp only
          rw [(pr_settled_facts (2 - 1) _ _ _ _ _ (by decide) ?hs1).1,
            applyHold_maxDepth]
          case hs1 => rw [applyHold_settled]
          simp
        · rw [pr_settle_tap 2 cfg rec s h 0 (by decide) h1 h3 h4.1 h4.2 h5]
          dsimp only
          rw [(pr_settled_facts (2 - 1) _ _ _ _ _ (by decide) ?hs3).1,
            (pr_settled_facts (2 - 1) _ _ _ _ _ (by decide) ?hs2).1,
            (pr_settled_facts (2 - 1) _ _ _ _ _ (by decide) rfl).1]
          case hs2 =>
            exact (pr_settled_facts (2 - 1) _ _ _ _ _ (by decide) rfl).2.1 h1
          case hs3 =>
            refine (pr_settled_facts (2 - 1) _ _ _ _ _ (by decide) ?_).2.2 rfl
            refine ((pr_settled_facts (2 - 1) _ _ _ _ _ (by decide) ?_).2.1 h1)
            rfl
          simp
      · rw [pr_passthrough 2 cfg rec s h 0 (by decide) h1 h3 h4]
        simp

/-- The achordion pipeline, started anywhere with recorded depth ≤ 1, keeps
the recorded depth ≤ 1. -/
theorem achRun_depth_aux (cfg : AchCfg) (es : List AchEvent) :
    ∀ s h, AchHost.maxDepth h ≤ 1 →
      (es.foldl (fun sh e => achStep cfg sh.1 sh.2 e) (s, h)).2.maxDepth ≤ 1 := by
  induction es with
  | nil => exact fun s h hh => hh
  | cons e tl ih =>
    intro s h hh
    cases e with
    | key rec =>
      refine ih _ _ ?_
      calc (processRecord 2 cfg rec s h 0).2.maxDepth
          ≤ max h.maxDepth 1 := pr_top_depth cfg rec s h
        _ ≤ 1 := by omega
    | tick now =>
      refine ih _ _ ?_
      show (achordionTask now s h).2.maxDepth ≤ 1
      rw [task_maxDepth]
      exact hh

/-! ## Repeat key engine (repeat_key.c) -/

/-- The static state of repeat_key.c. -/
structure RepState where
  last_record : KeyRecord
  last_layer_state : Nat
  last_keycode : Nat
  last_mods : Nat
  repeat_counter : Nat
  recursing : Bool
deriving DecidableEq, Repr

/-- Zero-initialized repeat key state (`last_record = {0}` has time 0, so
`IS_NOEVENT` holds and nothing can be repeated yet). -/
def repInit : RepState :=
  { last_record := ⟨⟨⟨0, 0⟩, false, 0⟩, ⟨0⟩⟩
    last_layer_state := 0
    last_keycode := KC_NO
    last_mods := 0
    repeat_counter := 0
    recursing := false }

/-- Host actions observable from repeat_key.c. -/
inductive RepAction where
  | registerMods (m : Nat)
  | setMods (m : Nat)
  | sendReport
  | layerStateSet (l : Nat)
  | registerCode16 (kc : Nat)
  | unregisterCode16 (kc : Nat)
  /-- The handler returned true: default processing of the event. -/
  | defaultHandle (keycode : Nat) (record : KeyRecord)
deriving DecidableEq, Repr

/-- Host state seen by repeat_key.c: modifier states, layer state, the action
trace, and the maximal re-injection depth reached. -/
structure RepHost where
  mods : Nat
  weak_mods : Nat
  oneshot_mods : Nat
  layer_state : Nat
  outputs : List RepAction
  maxDepth : Nat
deriving DecidableEq, Repr

def repHostInit : RepHost := ⟨0, 0, 0, 0, [], 0⟩

/-- Configuration: keymap lookup, the Repeat and Reverse-Repeat trigger
keycodes, the eligibility callback `repeat_key_press_user`, and the
`rev_repeat_key_pairs` table. -/
structure RepCfg where
  keyAt : KeyPos → Nat
  repeat_keycode : Nat
  rev_repeat_keycode : Nat
  eligible : Nat → KeyRecord → Bool
  revPairs : List (Nat × Nat)

def repRegisterMods (h : RepHost) (m : Nat) : RepHost :=
  { h with mods := h.mods ||| m, outputs := h.outputs ++ [.registerMods m] }

def repLayerStateSet (h : RepHost) (l : Nat) : RepHost :=
  { h with layer_state := l, outputs := h.outputs ++ [.layerStateSet l] }

/-- The target keycode used by `rev_repeat_key_keycode()`: a basic keycode
incorporates the last mods into bits 8..15 (the right-alt special case uses
`last_mods & QK_RALT` on the 8-bit mods, which is always 0, exactly as in the
C source). -/
def revTarget (s : RepState) : Nat :=
  if s.last_keycode ≤ 0xFF then
    let t := s.last_keycode |||
      (((s.last_mods >>> 4) ||| s.last_mods.land 0xf) <<< 8)
    if s.last_mods.land 0x1400 = 0x1400 then t ||| 0x40 else t
  else s.last_keycode

/-- Scan of the `rev_repeat_key_pairs` table: the first entry matching the
target yields its partner (the `i ^ 1` step of the C loop). -/
def revLookup : List (Nat × Nat) → Nat → Nat
  | [], _ => KC_NO
  | (a, b) :: rest, t => if t = a then b else if t = b then a else revLookup rest t

/-- `rev_repeat_key_keycode()`. -/
def revRepeatKeyKeycode (cfg : RepCfg) (s : RepState) : Nat :=
  revLookup cfg.revPairs (revTarget s)

/-- `rev_repeat_key_register()`: registers the alternate keycode if there is
one and reports whether it did. -/
def revRepeatKeyRegister (cfg : RepCfg) (s : RepState) (h : RepHost) :
    Bool × RepHost :=
  let kc := revRepeatKeyKeycode cfg s
  if ¬ kc = KC_NO then
    (true, { h with outputs := h.outputs ++ [.registerCode16 kc] })
  else (false, h)

/-- `rev_repeat_key_unregister()`. -/
def revRepeatKeyUnregister (cfg : RepCfg) (s : RepState) (h : RepHost) :
    Bool × RepHost :=
  let kc := revRepeatKeyKeycode cfg s
  if ¬ kc = KC_NO then
    (true, { h with outputs := h.outputs ++ [.unregisterCode16 kc] })
  else (false, h)

/-- `remember_key_press()`. -/
def rememberKeyPress (keycode : Nat) (record : KeyRecord) (s : RepState)
    (h : RepHost) : RepState :=
  { s with last_record := record
           last_layer_state := h.layer_state
           last_keycode := keycode
           last_mods := h.mods ||| h.weak_mods ||| h.oneshot_mods
           repeat_counter := 0 }

/-- One `process_record` call of the pipeline around
`process_repeat_key_with_rev`.  The Repeat trigger branch inlines
`recursively_process_repeat_key`, whose re-injected event re-enters this very
function at `depth + 1` under the `recursing` guard. -/
def repProcessRecord : Nat → RepCfg → KeyRecord → RepState → RepHost → Nat →
    RepState × RepHost
  | 0, _, _, s, h, depth => (s, { h with maxDepth := max h.maxDepth depth })
  | fuel + 1, cfg, record, s, h, depth =>
    let h := { h with maxDepth := max h.maxDepth depth }
    let keycode := cfg.keyAt record.event.key
    if keycode = cfg.rev_repeat_keycode then
      let br := if record.event.pressed = true then revRepeatKeyRegister cfg s h
                else revRepeatKeyUnregister cfg s h
      if br.1 = true then (s, br.2)
      else (s, { br.2 with outputs := br.2.outputs ++ [.defaultHandle keycode record] })
    else if s.recursing = true then
      (s, { h with outputs := h.outputs ++ [.defaultHandle keycode record] })
    else if keycode = cfg.repeat_keycode then
      if s.recursing = true ∨ s.last_record.event.time = 0 then (s, h)
      else
        let s1 := if record.event.pressed = true ∧ s.repeat_counter < 255 then
                    { s with repeat_counter := s.repeat_counter + 1 }
                  else s
        let saved_mods := h.mods
        let h1 := repRegisterMods h s1.last_mods
        let saved_layer := h1.layer_state
        let h2 := repLayerStateSet h1 s1.last_layer_state
        let rec2 := { s1.last_record with
                      event := { s1.last_record.event with
                                 pressed := record.event.pressed
                                 time := record.event.time ||| 1 } }
        let s2 := { s1 with last_record := rec2, recursing := true }
        let sh := repProcessRecord fuel cfg rec2 s2 h2 (depth + 1)
        let s3 := { sh.1 with recursing := false }
        let h3 := repLayerStateSet sh.2 saved_layer
        let h4 := if ¬ saved_mods = h3.mods then
                    { h3 with mods := saved_mods
                              outputs := h3.outputs ++ [.setMods saved_mods, .sendReport] }
                  else h3
        (s3, h4)
    else if record.event.pressed = true ∧ cfg.eligible keycode record = true then
      (rememberKeyPress keycode record s h,
       { h with outputs := h.outputs ++ [.defaultHandle keycode record] })
    else
      (s, { h with outputs := h.outputs ++ [.defaultHandle keycode record] })

/-- Run a list of key records through the repeat-key pipeline from the
initial state, each at depth 0 with fuel 2. -/
def repRun (cfg : RepCfg) (es : List KeyRecord) : RepState × RepHost :=
  es.foldl (fun sh rec => repProcessRecord 2 cfg rec sh.1 sh.2 0)
    (repInit, repHostInit)

/-! ### Branch equations for `repProcessRecord` -/

theorem rep_rev_eq (fuel : Nat) (cfg : RepCfg) (rec : KeyRecord) (s : RepState)
    (h : RepHost) (d : Nat) (hf : fuel ≠ 0)
    (h1 : cfg.keyAt rec.event.key = cfg.rev_repeat_keycode) :
    repProcessRecord fuel cfg rec s h d =
      (let h' : RepHost := { h with maxDepth := max h.maxDepth d }
       let br := if rec.event.pressed = true then revRepeatKeyRegister cfg s h'
                 else revRepeatKeyUnregister cfg s h'
       if br.1 = true then (s, br.2)
       else (s, { br.2 with outputs := br.2.outputs ++
         [.defaultHandle (cfg.keyAt rec.event.key) rec] })) := by
  cases fuel with
  | zero => exact absurd rfl hf
  | succ f =>
    conv_lhs => unfold repProcessRecord
    dsimp only
    rw [if_pos h1]

theorem rep_recursing_eq (fuel : Nat) (cfg : RepCfg) (rec : KeyRecord)
    (s : RepState) (h : RepHost) (d : Nat) (hf : fuel ≠ 0)
    (h1 : ¬ cfg.keyAt rec.event.key = cfg.rev_repeat_keycode)
    (hr : s.recursing = true) :
    repProcessRecord fuel cfg rec s h d =
      (s, { h with maxDepth := max h.maxDepth d
                   outputs := h.outputs ++
                     [.defaultHandle (cfg.keyAt rec.event.key) rec] }) := by
  cases fuel with
  | zero => exact absurd rfl hf
  | succ f =>
    conv_lhs => unfold repProcessRecord
    dsimp only
    rw [if_neg h1, if_pos hr]

theorem rep_repeat_guard_eq (fuel : Nat) (cfg : RepCfg) (rec : KeyRecord)
    (s : RepState) (h : RepHost) (d : Nat) (hf : fuel ≠ 0)
    (h1 : ¬ cfg.keyAt rec.event.key = cfg.rev_repeat_keycode)
    (hr : ¬ s.recursing = true)
    (h2 : cfg.keyAt rec.event.key = cfg.repeat_keycode)
    (hg : s.recursing = true ∨ s.last_record.event.time = 0) :
    repProcessRecord fuel cfg rec s h d =
      (s, { h with maxDepth := max h.maxDepth d }) := by
  cases fuel with
  | zero => exact absurd rfl hf
  | succ f =>
    conv_lhs => unfold repProcessRecord
    dsimp only
    rw [if_neg h1, if_neg hr, if_pos h2, if_pos hg]

theorem rep_repeat_eq (fuel : Nat) (cfg : RepCfg) (rec : KeyRecord)
    (s : RepState) (h : RepHost) (d : Nat) (hf : fuel ≠ 0)
    (h1 : ¬ cfg.keyAt rec.event.key = cfg.rev_repeat_keycode)
    (hr : ¬ s.recursing = true)
    (h2 : cfg.keyAt rec.event.key = cfg.repeat_keycode)
    (hg : ¬ (s.recursing = true ∨ s.last_record.event.time = 0)) :
    repProcessRecord fuel cfg rec s h d =
      (let h' : RepHost := { h with maxDepth := max h.maxDepth d }
       let s1 := if rec.event.pressed = true ∧ s.repeat_counter < 255 then
                   { s with repeat_counter := s.repeat_counter + 1 }
                 else s
       let saved_mods := h'.mods
       let h1' := repRegisterMods h' s1.last_mods
       let saved_layer := h1'.layer_state
       let h2' := repLayerStateSet h1' s1.last_layer_state
       let rec2 := { s1.last_record with
                     event := { s1.last_record.event with
                                pressed := rec.event.pressed
                                time := rec.event.time ||| 1 } }
       let s2 := { s1 with last_record := rec2, recursing := true }
       let sh := repProcessRecord (fuel - 1) cfg rec2 s2 h2' (d + 1)
       let s3 := { sh.1 with recursing := false }
       let h3 := repLayerStateSet sh.2 saved_layer
       let h4 := if ¬ saved_mods = h3.mods then
                   { h3 with mods := saved_mods
                             outputs := h3.outputs ++ [.setMods saved_mods, .sendReport] }
                 else h3
       (s3, h4)) := by
  cases fuel with
  | zero => exact absurd rfl hf
  | succ f =>
    simp only [Nat.add_sub_cancel]
    conv_lhs => unfold repProcessRecord
    dsimp only
    rw [if_neg h1, if_neg hr, if_pos h2, if_neg hg]

theorem rep_remember_eq (fuel : Nat) (cfg : RepCfg) (rec : KeyRecord)
    (s : RepState) (h : RepHost) (d : Nat) (hf : fuel ≠ 0)
    (h1 : ¬ cfg.keyAt rec.event.key = cfg.rev_repeat_keycode)
    (hr : ¬ s.recursing = true)
    (h2 : ¬ cfg.keyAt rec.event.key = cfg.repeat_keycode)
    (he : rec.event.pressed = true ∧ cfg.eligible (cfg.keyAt rec.event.key) rec = true) :
    repProcessRecord fuel cfg rec s h d =
      (rememberKeyPress (cfg.keyAt rec.event.key) rec s
         { h with maxDepth := max h.maxDepth d },
       { h with maxDepth := max h.maxDepth d
                outputs := h.outputs ++
                  [.defaultHandle (cfg.keyAt rec.event.key) rec] }) := by
  cases fuel with
  | zero => exact absurd rfl hf
  | succ f =>
    conv_lhs => unfold repProcessRecord
    dsimp only
    rw [if_neg h1, if_neg hr, if_neg h2, if_pos he]

theorem rep_default_eq (fuel : Nat) (cfg : RepCfg) (rec : KeyRecord)
    (s : RepState) (h : RepHost) (d : Nat) (hf : fuel ≠ 0)
    (h1 : ¬ cfg.keyAt rec.event.key = cfg.rev_repeat_keycode)
    (hr : ¬ s.recursing = true)
    (h2 : ¬ cfg.keyAt rec.event.key = cfg.repeat_keycode)
    (he : ¬ (rec.event.pressed = true ∧
        cfg.eligible (cfg.keyAt rec.event.key) rec = true)) :
    repProcessRecord fuel cfg rec s h d =
      (s, { h with maxDepth := max h.maxDepth d
                   outputs := h.outputs ++
                     [.defaultHandle (cfg.keyAt rec.event.key) rec] }) := by
  cases fuel with
  | zero => exact absurd rfl hf
  | succ f =>
    conv_lhs => unfold repProcessRecord
    dsimp only
    rw [if_neg h1, if_neg hr, if_neg h2, if_neg he]

theorem revRegister_maxDepth (cfg : RepCfg) (s : RepState) (h : RepHost) :
    (revRepeatKeyRegister cfg s h).2.maxDepth = h.maxDepth := by
  unfold revRepeatKeyRegister
  dsimp only
  split_ifs <;> rfl

theorem revUnregister_maxDepth (cfg : RepCfg) (s : RepState) (h : RepHost) :
    (revRepeatKeyUnregister cfg s h).2.maxDepth = h.maxDepth := by
  unfold revRepeatKeyUnregister
  dsimp only
  split_ifs <;> rfl

theorem repRegisterMods_maxDepth (h : RepHost) (m : Nat) :
    (repRegisterMods h m).maxDepth = h.maxDepth := rfl

theorem repLayerStateSet_maxDepth (h : RepHost) (l : Nat) :
    (repLayerStateSet h l).maxDepth = h.maxDepth := rfl

theorem ite_modsRestore_maxDepth (c : Prop) [Decidable c] (h3 : RepHost)
    (m : Nat) (o : List RepAction) :
    (if c then { h3 with mods := m, outputs := o } else h3).maxDepth
      = h3.maxDepth := by
  split_ifs <;> rfl

/-- Under the `recursing` guard (or in the rev-repeat branch, which never
re-injects), processing an event leaves the repeat state unchanged for
recursing entries and never records a deeper depth. -/
theorem rep_recursing_result (fuel : Nat) (cfg : RepCfg) (rec : KeyRecord)
    (s : RepState) (h : RepHost) (d : Nat) (hf : fuel ≠ 0)
    (hr : s.recursing = true) :
    (repProcessRecord fuel cfg rec s h d).1 = s ∧
    (repProcessRecord fuel cfg rec s h d).2.maxDepth = max h.maxDepth d := by
  by_cases h1 : cfg.keyAt rec.event.key = cfg.rev_repeat_keycode
  · rw [rep_rev_eq fuel cfg rec s h d hf h1]
    dsimp only
    by_cases hp : rec.event.pressed = true
    · rw [if_pos hp]
      split_ifs <;>
        exact ⟨rfl, revRegister_maxDepth cfg s _⟩
    · rw [if_neg hp]
      split_ifs <;>
        exact ⟨rfl, revUnregister_maxDepth cfg s _⟩
  · rw [rep_recursing_eq fuel cfg rec s h d hf h1 hr]
    exact ⟨rfl, rfl⟩

/-- One top-level event through the repeat pipeline never records depth
past 1: the single re-injection runs under `recursing = true` and is passed
through without further re-injection. -/
theorem rep_top_depth (cfg : RepCfg) (rec : KeyRecord) (s : RepState)
    (h : RepHost) :
    (repProcessRecord 2 cfg rec s h 0).2.maxDepth ≤ max h.maxDepth 1 := by
  by_cases h1 : cfg.keyAt rec.event.key = cfg.rev_repeat_keycode
  · rw [rep_rev_eq 2 cfg rec s h 0 (by decide) h1]
    dsimp only
    by_cases hp : rec.event.pressed = true
    · rw [if_pos hp]
      split_ifs <;> simp [revRegister_maxDepth]
    · rw [if_neg hp]
      split_ifs <;> simp [revUnregister_maxDepth]
  · by_cases hr : s.recursing = true
    · rw [rep_recursing_eq 2 cfg rec s h 0 (by decide) h1 hr]
      simp
    · by_cases h2 : cfg.keyAt rec.event.key = cfg.repeat_keycode
      · by_cases hg : (s.recursing = true ∨ s.last_record.event.time = 0)
        · rw [rep_repeat_guard_eq 2 cfg rec s h 0 (by decide) h1 hr h2 hg]
          simp
        · rw [rep_repeat_eq 2 cfg rec s h 0 (by decide) h1 hr h2 hg]
          dsimp only
          rw [ite_modsRestore_maxDepth, repLayerStateSet_maxDepth,
            (rep_recursing_result (2 - 1) _ _ _ _ _ (by decide) ?hrec).2,
            repLayerStateSet_maxDepth, repRegisterMods_maxDepth]
          case hrec => rfl
          simp
      · by_cases he : (rec.event.pressed = true ∧
            cfg.eligible (cfg.keyAt rec.event.key) rec = true)
        · rw [rep_remember_eq 2 cfg rec s h 0 (by decide) h1 hr h2 he]
          simp
        · rw [rep_default_eq 2 cfg rec s h 0 (by decide) h1 hr h2 he]
          simp

theorem repRun_depth_aux (cfg : RepCfg) (es : List KeyRecord) :
    ∀ s h, RepHost.maxDepth h ≤ 1 →
      (es.foldl (fun sh rec => repProcessRecord 2 cfg rec sh.1 sh.2 0) (s, h)).2.maxDepth ≤ 1 := by
  induction es with
  | nil => exact fun s h hh => hh
  | cons e tl ih =>
    intro s h hh
    refine ih _ _ ?_
    calc (repProcessRecord 2 cfg e s h 0).2.maxDepth
        ≤ max h.maxDepth 1 := rep_top_depth cfg e s h
      _ ≤ 1 := by omega

/-! ### C4 -/

/-- C4: synthetic events re-injected by a replay never trigger a nested
replay of the same kind.  The tap-hold resolver sets `settled` before
re-injecting and checks it on entry; the repeat engine sets `recursing`
around its injected event, under which `process_repeat_key` passes events
through without repeating or remembering.  Hence for every configuration and
every input sequence, the recorded re-injection depth of each of the two
pipelines is bounded by 1. -/
theorem replay_recursion_depth_bounded :
    (∀ (cfg : AchCfg) (es : List AchEvent), (achRun cfg es).2.maxDepth ≤ 1) ∧
    (∀ (cfg : RepCfg) (es : List KeyRecord), (repRun cfg es).2.maxDepth ≤ 1) := by
  constructor
  · intro cfg es
    exact achRun_depth_aux cfg es achInit achHostInit (by decide)
  · intro cfg es
    exact repRun_depth_aux cfg es repInit repHostInit (by decide)

/-! ### C6 and C7 -/

/-- Matrix position of the remembered `KC_LEFT` key. -/
def posL : KeyPos := ⟨3, 2⟩
/-- Matrix position of the Repeat trigger key. -/
def posRep : KeyPos := ⟨4, 0⟩
/-- Matrix position of the Reverse-Repeat trigger key. -/
def posRev : KeyPos := ⟨4, 1⟩
/-- Custom keycode of the Repeat key. -/
def REP_KC : Nat := 0x7E00
/-- Custom keycode of the Reverse-Repeat key. -/
def REV_KC : Nat := 0x7E01

/-- Concrete repeat-key configuration: `KC_LEFT`/`KC_RGHT` declared as a
reverse pair, every key eligible for remembering. -/
def cfg6 : RepCfg :=
  { keyAt := fun p =>
      if p = posL then KC_LEFT else if p = posRep then REP_KC
      else if p = posRev then REV_KC else KC_NO
    repeat_keycode := REP_KC
    rev_repeat_keycode := REV_KC
    eligible := fun _ _ => true
    revPairs := [(KC_LEFT, KC_RGHT)] }

/-- C6: evaluation of repeat_key.c at the failing input.  After remembering
`KC_LEFT` and pressing the Reverse-Repeat key, the alternate action is
performed (`KC_RGHT` is registered) yet `repeat_counter` — an unsigned
`uint8_t` in this source file — is left at 0, not decremented to −1 as the
claim (and the signed `get_repeat_key_count` documentation of repeat_key.h)
requires; a Repeat press instead increments it to 1. -/
theorem repeat_c6_counter_not_negative :
    (repRun cfg6 [⟨⟨posL, true, 10⟩, ⟨1⟩⟩, ⟨⟨posRev, true, 20⟩, ⟨1⟩⟩]).1.repeat_counter
      = 0 ∧
    (repRun cfg6 [⟨⟨posL, true, 10⟩, ⟨1⟩⟩, ⟨⟨posRev, true, 20⟩, ⟨1⟩⟩]).2.outputs
      = [.defaultHandle KC_LEFT ⟨⟨posL, true, 10⟩, ⟨1⟩⟩, .registerCode16 KC_RGHT] ∧
    (repRun cfg6 [⟨⟨posL, true, 10⟩, ⟨1⟩⟩, ⟨⟨posRep, true, 20⟩, ⟨1⟩⟩]).1.repeat_counter
      = 1 := by
  decide

/-- C7, counterexample: a Repeat press mutates the stored `last_record`
(its `event.pressed` and `event.time` fields are rewritten to synthesize the
replayed event), so the remembered context is not left unchanged except for
the repeat counter as claimed. -/
theorem repeat_c7_counterexample :
    ¬ ((repRun cfg6 [⟨⟨posL, true, 10⟩, ⟨1⟩⟩, ⟨⟨posRep, true, 20⟩, ⟨1⟩⟩]).1.last_record
        = (repRun cfg6 [⟨⟨posL, true, 10⟩, ⟨1⟩⟩]).1.last_record) := by
  decide

/-- C7 (amended): a Repeat invocation leaves the remembered keycode, mods,
layer state, and the remembered key's matrix position and tap info unchanged
(only the repeat counter and the stored record's transient
`event.pressed`/`event.time` fields change, rewritten to synthesize the
replay), and a Reverse-Repeat invocation leaves the whole repeat state
unchanged — so double-tapping Repeat performs the same remembered action
twice rather than escalating. -/
theorem repeat_c7_amended (cfg : RepCfg) (rec recV : KeyRecord) (s : RepState)
    (h hV : RepHost) (hr : s.recursing = false)
    (hkc : cfg.keyAt rec.event.key = cfg.repeat_keycode)
    (hnotrev : ¬ cfg.keyAt rec.event.key = cfg.rev_repeat_keycode)
    (hkcV : cfg.keyAt recV.event.key = cfg.rev_repeat_keycode) :
    ((repProcessRecord 2 cfg rec s h 0).1.last_keycode = s.last_keycode ∧
     (repProcessRecord 2 cfg rec s h 0).1.last_mods = s.last_mods ∧
     (repProcessRecord 2 cfg rec s h 0).1.last_layer_state = s.last_layer_state ∧
     (repProcessRecord 2 cfg rec s h 0).1.last_record.event.key
       = s.last_record.event.key ∧
     (repProcessRecord 2 cfg rec s h 0).1.last_record.tap = s.last_record.tap ∧
     (repProcessRecord 2 cfg rec s h 0).1.recursing = false) ∧
    (repProcessRecord 2 cfg recV s hV 0).1 = s := by
  have hrb : ¬ s.recursing = true := by simp [hr]
  constructor
  · by_cases hg : (s.recursing = true ∨ s.last_record.event.time = 0)
    · rw [rep_repeat_guard_eq 2 cfg rec s h 0 (by decide) hnotrev hrb hkc hg]
      exact ⟨rfl, rfl, rfl, rfl, rfl, hr⟩
    · rw [rep_repeat_eq 2 cfg rec s h 0 (by decide) hnotrev hrb hkc hg]
      dsimp only
      rw [(rep_recursing_result (2 - 1) _ _ _ _ _ (by decide) ?hrec).1]
      case hrec => rfl
      split_ifs <;> exact ⟨rfl, rfl, rfl, rfl, rfl, rfl⟩
  · rw [rep_rev_eq 2 cfg recV s hV 0 (by decide) hkcV]
    dsimp only
    by_cases hp : recV.event.pressed = true
    · rw [if_pos hp]
      split_ifs <;> rfl
    · rw [if_neg hp]
      split_ifs <;> rfl

/-- C7 witness: the amended theorem applied at `cfg6`. -/
theorem repeat_c7_amended_witness :
    (repProcessRecord 2 cfg6 ⟨⟨posRep, true, 20⟩, ⟨1⟩⟩ repInit repHostInit 0).1.last_keycode
      = repInit.last_keycode :=
  (repeat_c7_amended cfg6 ⟨⟨posRep, true, 20⟩, ⟨1⟩⟩ ⟨⟨posRev, true, 20⟩, ⟨1⟩⟩
    repInit repHostInit repHostInit rfl (by decide) (by decide) (by decide)).1.1

/-! ## Sentence case state machine (src/features/sentence_case.c) -/

def STATE_INIT : Nat := 0
def STATE_WORD : Nat := 1
def STATE_MATCHED : Nat := 2
def STATE_ABBREV : Nat := 3
def STATE_ENDING : Nat := 4
def STATE_PRIMED : Nat := 5

def SENTENCE_CASE_BUFFER_SIZE : Nat := 8
def SENTENCE_CASE_TIMEOUT : Nat := 2000

/-- The static state of sentence_case.c: the FSM state, the rolling keycode
buffer, and the idle timer deadline. -/
structure SCState where
  sentence_state : Nat
  buffer : List Nat
  idle_timer : Nat
deriving DecidableEq, Repr

def scInit : SCState := ⟨STATE_INIT, List.replicate SENTENCE_CASE_BUFFER_SIZE 0, 0⟩

/-- Actions of sentence_case.c observable by the host: the weak shift
registration and the `sentence_case_primed` user callback. -/
inductive SCAction where
  | registerWeakMods (mods : Nat)
  | primedCall (primed : Bool)
deriving DecidableEq, Repr

/-- `set_sentence_state()`: invokes `sentence_case_primed` exactly when the
primed status changes, then stores the new state. -/
def setSentenceState (st : SCState) (newState : Nat) : SCState × List SCAction :=
  let primed := decide (newState = STATE_PRIMED)
  let calls := if ¬ primed = decide (st.sentence_state = STATE_PRIMED) then
                 [SCAction.primedCall primed]
               else []
  ({ st with sentence_state := newState }, calls)

/-- `sentence_case_just_typed()`: the pattern matches the trailing entries of
the rolling buffer. -/
def sentenceCaseJustTyped (buffer pattern : List Nat) : Bool :=
  decide (buffer.drop (SENTENCE_CASE_BUFFER_SIZE - pattern.length) = pattern)

/-- Default `sentence_case_check_ending()`: rejects the abbreviations
`" vs."` and `" etc."`. -/
def sentenceCaseCheckEnding (buffer : List Nat) : Bool :=
  if sentenceCaseJustTyped buffer [KC_SPC, KC_V, KC_S, KC_DOT] = true ∨
      sentenceCaseJustTyped buffer [KC_SPC, KC_E, KC_T, KC_C, KC_DOT] = true then
    false
  else true

/-- Default `sentence_case_is_letter()`: A..Z. -/
def sentenceCaseIsLetter (kc : Nat) : Bool := decide (KC_A ≤ kc ∧ kc ≤ KC_Z)

/-- Default `sentence_case_is_punct()`. -/
def sentenceCaseIsPunct (kc mods : Nat) : Bool :=
  let shifted := decide (¬ mods.land MOD_MASK_SHIFT = 0)
  if kc = KC_DOT then ! shifted
  else if kc = KC_1 ∨ kc = KC_SLSH then shifted
  else if kc = KC_QUES ∨ kc = KC_EXLM then true
  else false

/-- The keys ignored by the `switch` of `process_sentence_case`: layer
switches and shift keys. -/
def scIgnoredKey (kc : Nat) : Prop :=
  (QK_MOMENTARY ≤ kc ∧ kc ≤ QK_MOMENTARY_MAX) ∨
  (QK_TO ≤ kc ∧ kc ≤ QK_TO_MAX) ∨
  (QK_TOGGLE_LAYER ≤ kc ∧ kc ≤ QK_TOGGLE_LAYER_MAX) ∨
  (QK_LAYER_TAP_TOGGLE ≤ kc ∧ kc ≤ QK_LAYER_TAP_TOGGLE_MAX) ∨
  (QK_ONE_SHOT_LAYER ≤ kc ∧ kc ≤ QK_ONE_SHOT_LAYER_MAX) ∨
  kc = KC_LSFT ∨ kc = KC_RSFT ∨ kc = OSM_MOD_LSFT ∨ kc = OSM_MOD_RSFT

instance : DecidablePred scIgnoredKey := fun kc => by
  unfold scIgnoredKey; infer_instance

/-- An input to the sentence-case machine: the keycode and tap count of the
record, whether it is a press, and the modifier state
`get_mods() | get_oneshot_mods()` at that moment. -/
structure SCEvent where
  keycode : Nat
  pressed : Bool
  mods : Nat
  tapCount : Nat
  time : Nat
deriving DecidableEq, Repr

/-- The classification core of `process_sentence_case`: next FSM state and
the weak shift registration for one (masked) keycode. -/
def scNewState (st : SCState) (e : SCEvent) (kc : Nat) : Nat × List SCAction :=
  if kc = KC_SPC then
      (if st.sentence_state = STATE_PRIMED ∨
          (st.sentence_state = STATE_ENDING ∧
            sentenceCaseCheckEnding st.buffer = true) then
        STATE_PRIMED
       else STATE_INIT, [])
    else if sentenceCaseIsLetter kc = true then
      if st.sentence_state ≤ STATE_MATCHED then (STATE_WORD, [])
      else if st.sentence_state = STATE_PRIMED then
        (STATE_MATCHED,
         if e.mods.land MOD_MASK_SHIFT = 0 then
           [.registerWeakMods MOD_BIT_LSFT]
         else [])
      else (STATE_ABBREV, [])
    else if sentenceCaseIsPunct kc e.mods = true then
      if st.sentence_state = STATE_WORD ∨ st.sentence_state = STATE_MATCHED then
        (if sentenceCaseCheckEnding st.buffer = true then STATE_ENDING
         else STATE_INIT, [])
      else if st.sentence_state = STATE_ABBREV then (STATE_ABBREV, [])
      else (STATE_INIT, [])
    else (STATE_INIT, [])

/-- The state-transition core of `process_sentence_case` after the early
returns: classify the (masked) keycode via `scNewState`, push the keycode
into the rolling buffer, refresh the idle timer, and commit via
`set_sentence_state`. -/
def scProcessKey (st : SCState) (e : SCEvent) (kc : Nat) : SCState × List SCAction :=
  let res := scNewState st e kc
  let st1 := { st with
               buffer := st.buffer.drop 1 ++ [kc]
               idle_timer := (e.time + SENTENCE_CASE_TIMEOUT) % 65536 }
  let sc := setSentenceState st1 res.1
  (sc.1, res.2 ++ sc.2)

/-- `process_sentence_case()`. -/
def processSentenceCase (st : SCState) (e : SCEvent) : SCState × List SCAction :=
  if e.pressed = false then (st, [])
  else if ¬ andNot e.mods (MOD_MASK_SHIFT ||| MOD_BIT_RALT) = 0 then
    -- A modifier other than shift or AltGr is held: keycode treated as
    -- KC_NO, the FSM and buffer update are skipped, the state resets.
    setSentenceState st STATE_INIT
  else if scIgnoredKey e.keycode then (st, [])
  else if (QK_MOD_TAP ≤ e.keycode ∧ e.keycode ≤ QK_MOD_TAP_MAX) ∨
      (QK_LAYER_TAP ≤ e.keycode ∧ e.keycode ≤ QK_LAYER_TAP_MAX) then
    if e.tapCount = 0 then (st, [])
    else scProcessKey st e (e.keycode.land 0xFF)
  else scProcessKey st e e.keycode

/-- `sentence_case_task()`: idle timeout resets the machine. -/
def sentenceCaseTask (now : Nat) (st : SCState) : SCState × List SCAction :=
  if ¬ st.sentence_state = 0 ∧ timerExpired now st.idle_timer = true then
    setSentenceState st STATE_INIT
  else (st, [])

/-- Run a key sequence from the initial state, accumulating all actions. -/
def scRun (es : List SCEvent) : SCState × List SCAction :=
  es.foldl (fun acc e =>
    let r := processSentenceCase acc.1 e
    (r.1, acc.2 ++ r.2)) (scInit, [])

/-- Plain unmodified press events for a list of keycodes. -/
def tapEvents (kcs : List Nat) : List SCEvent :=
  kcs.map fun kc => ⟨kc, true, 0, 1, 1⟩

def scIsWeakAction (a : SCAction) : Bool :=
  match a with
  | .registerWeakMods _ => true
  | _ => false

def scIsPrimedCall (a : SCAction) : Bool :=
  match a with
  | .primedCall _ => true
  | _ => false

/-! ### C5 -/

/-- C5, counterexample.  The claim asserts that feeding the machine the key
sequence "vs. world" does not prime capitalization.  Typed from the initial
(cleared-buffer) state, the abbreviation-exception pattern `" vs."` does not
match (it requires the space before "vs" to be in the rolling buffer), so the
space after "vs." DOES prime the machine and the following `w` is emitted
with the weak shift modifier. -/
theorem sentence_case_c5_counterexample :
    (scRun (tapEvents [KC_V, KC_S, KC_DOT, KC_SPC])).1.sentence_state
      = STATE_PRIMED ∧
    (scRun (tapEvents [KC_V, KC_S, KC_DOT, KC_SPC, KC_W])).2.filter scIsWeakAction
      = [.registerWeakMods MOD_BIT_LSFT] := by
  decide

/-- C5 (amended): "hello world" injects no shift; "hello.  world" (period,
two spaces) primes capitalization and the `w` is emitted with the weak shift
modifier; and the abbreviation exception suppresses priming when the
abbreviation is preceded by a space in the rolling buffer, as within a
sentence: feeding " vs. world" does not prime, whereas "vs." typed into a
cleared buffer is treated as a real sentence ending. -/
theorem sentence_case_c5_amended :
    (scRun (tapEvents [KC_H, KC_E, KC_L, KC_L, KC_O, KC_SPC,
        KC_W, KC_O, KC_R, KC_L, KC_D])).2.filter scIsWeakAction = [] ∧
    (scRun (tapEvents [KC_H, KC_E, KC_L, KC_L, KC_O, KC_DOT,
        KC_SPC, KC_SPC])).1.sentence_state = STATE_PRIMED ∧
    (scRun (tapEvents [KC_H, KC_E, KC_L, KC_L, KC_O, KC_DOT,
        KC_SPC, KC_SPC])).2.filter scIsWeakAction = [] ∧
    (scRun (tapEvents [KC_H, KC_E, KC_L, KC_L, KC_O, KC_DOT,
        KC_SPC, KC_SPC, KC_W])).2.filter scIsWeakAction
      = [.registerWeakMods MOD_BIT_LSFT] ∧
    (scRun (tapEvents [KC_H, KC_E, KC_L, KC_L, KC_O, KC_DOT,
        KC_SPC, KC_SPC, KC_W])).1.sentence_state = STATE_MATCHED ∧
    (scRun (tapEvents [KC_SPC, KC_V, KC_S, KC_DOT, KC_SPC])).1.sentence_state
      = STATE_INIT ∧
    (scRun (tapEvents [KC_SPC, KC_V, KC_S, KC_DOT, KC_SPC,
        KC_W])).2.filter scIsWeakAction = [] := by
  decide

/-! ### C10 -/

theorem setSentenceState_spec (st : SCState) (n : Nat) :
    ((setSentenceState st n).2.filter scIsPrimedCall
       = if decide ((setSentenceState st n).1.sentence_state = STATE_PRIMED)
            = decide (st.sentence_state = STATE_PRIMED) then []
         else [.primedCall (decide ((setSentenceState st n).1.sentence_state
                = STATE_PRIMED))]) ∧
    (setSentenceState st n).1.sentence_state = n := by
  unfold setSentenceState
  dsimp only
  refine ⟨?_, rfl⟩
  split_ifs with h1 <;> simp_all [scIsPrimedCall]

theorem scNewState_no_primed (st : SCState) (e : SCEvent) (kc : Nat) :
    (scNewState st e kc).2.filter scIsPrimedCall = [] := by
  unfold scNewState
  split_ifs <;> rfl

theorem scProcessKey_spec (st : SCState) (e : SCEvent) (kc : Nat) :
    (scProcessKey st e kc).2.filter scIsPrimedCall
      = if decide ((scProcessKey st e kc).1.sentence_state = STATE_PRIMED)
           = decide (st.sentence_state = STATE_PRIMED) then []
        else [.primedCall (decide ((scProcessKey st e kc).1.sentence_state
               = STATE_PRIMED))] := by
  unfold scProcessKey
  dsimp only
  rw [List.filter_append, scNewState_no_primed, List.nil_append]
  exact (setSentenceState_spec _ _).1

/-- C10: the `sentence_case_primed` user callback is invoked exactly when the
primed status changes: processing any single event (and likewise any idle
poll) produces a `primedCall true` exactly when the state enters
`STATE_PRIMED` from a non-primed state, a `primedCall false` exactly when it
leaves `STATE_PRIMED`, and no call at all when the primed status is
unchanged. -/
theorem sentence_case_c10 (st : SCState) (e : SCEvent) (now : Nat) :
    ((processSentenceCase st e).2.filter scIsPrimedCall
       = if decide ((processSentenceCase st e).1.sentence_state = STATE_PRIMED)
            = decide (st.sentence_state = STATE_PRIMED) then []
         else [.primedCall
            (decide ((processSentenceCase st e).1.sentence_state
              = STATE_PRIMED))]) ∧
    ((sentenceCaseTask now st).2.filter scIsPrimedCall
       = if decide ((sentenceCaseTask now st).1.sentence_state = STATE_PRIMED)
            = decide (st.sentence_state = STATE_PRIMED) then []
         else [.primedCall
            (decide ((sentenceCaseTask now st).1.sentence_state
              = STATE_PRIMED))]) := by
  constructor
  · unfold processSentenceCase
    by_cases hp : e.pressed = false
    · rw [if_pos hp]
      simp
    · rw [if_neg hp]
      by_cases hm : ¬ andNot e.mods (MOD_MASK_SHIFT ||| MOD_BIT_RALT) = 0
      · rw [if_pos hm]
        exact (setSentenceState_spec st STATE_INIT).1
      · rw [if_neg hm]
        by_cases hi : scIgnoredKey e.keycode
        · rw [if_pos hi]
          simp
        · rw [if_neg hi]
          by_cases hmt : (QK_MOD_TAP ≤ e.keycode ∧ e.keycode ≤ QK_MOD_TAP_MAX) ∨
              (QK_LAYER_TAP ≤ e.keycode ∧ e.keycode ≤ QK_LAYER_TAP_MAX)
          · rw [if_pos hmt]
            by_cases hc : e.tapCount = 0
            · rw [if_pos hc]
              simp
            · rw [if_neg hc]
              exact scProcessKey_spec st e _
          · rw [if_neg hmt]
            exact scProcessKey_spec st e _
  · unfold sentenceCaseTask
    by_cases ht : (¬ st.sentence_state = 0 ∧ timerExpired now st.idle_timer = true)
    · rw [if_pos ht]
      exact (setSentenceState_spec st STATE_INIT).1
    · rw [if_neg ht]
      simp

/-! ## Select word macro (src/features/select_word.c) -/

def SW_NONE : Nat := 0
def SW_SELECTED : Nat := 1
def SW_WORD : Nat := 2
def SW_FIRST_LINE : Nat := 3
def SW_LINE : Nat := 4

/-- Host actions of select_word.c. -/
inductive SWAction where
  | setMods (m : Nat)
  | clearMods
  | clearOneshotMods
  | registerMods (m : Nat)
  | unregisterMods (m : Nat)
  | tapCode (kc : Nat)
  | registerCode (kc : Nat)
  | unregisterCode (kc : Nat)
  | sendReport
deriving DecidableEq, Repr

/-- Host state for select_word.c: the modifier states, the set of key codes
currently registered (held down), and the action trace. -/
structure SWHost where
  mods : Nat
  oneshot_mods : Nat
  held : List Nat
  outputs : List SWAction
deriving DecidableEq, Repr

/-- `process_select_word()` (non-Mac hotkeys, no idle timeout configured).
Returns the new state, the new host, and whether the event falls through to
default handling.  `shifted` is computed from the one-shot mods before they
are cleared, exactly as in the C source. -/
def processSelectWord (selKeycode : Nat) (st : Nat) (h : SWHost)
    (keycode : Nat) (pressed : Bool) : Nat × SWHost × Bool :=
  if keycode = KC_LSFT ∨ keycode = KC_RSFT then (st, h, true)
  else if keycode = selKeycode ∧ pressed = true then
    let mods := h.mods
    let oneshot := h.oneshot_mods
    let h := { h with oneshot_mods := 0
                      outputs := h.outputs ++ [SWAction.clearOneshotMods] }
    if (mods ||| oneshot).land MOD_MASK_SHIFT = 0 then
      -- Select word: hold Left Ctrl.
      let h := { h with mods := MOD_BIT_LCTL, outputs := h.outputs ++ [SWAction.setMods MOD_BIT_LCTL] }
      let h :=
        if st = SW_NONE then
          { h with outputs := h.outputs ++ [SWAction.sendReport, SWAction.tapCode KC_RGHT, SWAction.tapCode KC_LEFT] }
        else h
      let h := { h with mods := h.mods ||| MOD_BIT_LSFT
                        outputs := h.outputs ++ [SWAction.registerMods MOD_BIT_LSFT] }
      let h := { h with held := h.held ++ [KC_RGHT]
                        outputs := h.outputs ++ [SWAction.registerCode KC_RGHT] }
      (SW_WORD, h, false)
    else
      -- Select line.
      if st = SW_NONE then
        let h := { h with mods := 0, outputs := h.outputs ++ [SWAction.clearMods, SWAction.sendReport, SWAction.tapCode KC_HOME] }
        let h := { h with mods := h.mods ||| MOD_BIT_LSFT
                          outputs := h.outputs ++ [SWAction.registerMods MOD_BIT_LSFT, SWAction.tapCode KC_END] }
        let h := { h with mods := mods, outputs := h.outputs ++ [SWAction.setMods mods] }
        (SW_FIRST_LINE, h, false)
      else
        let h := { h with held := h.held ++ [KC_DOWN]
                          outputs := h.outputs ++ [SWAction.registerCode KC_DOWN] }
        (SW_LINE, h, false)
  else
    -- `sel_keycode` was released, or another key was pressed.
    if st = SW_WORD then
      let h := { h with held := h.held.filter (fun kc => ¬ kc = KC_RGHT)
                        outputs := h.outputs ++ [SWAction.unregisterCode KC_RGHT] }
      let h := { h with mods := andNot h.mods (MOD_BIT_LSFT ||| MOD_BIT_LCTL)
                        outputs := h.outputs ++ [SWAction.unregisterMods (MOD_BIT_LSFT ||| MOD_BIT_LCTL)] }
      (SW_SELECTED, h, true)
    else if st = SW_FIRST_LINE then (SW_SELECTED, h, true)
    else if st = SW_LINE then
      (SW_SELECTED,
       { h with held := h.held.filter (fun kc => ¬ kc = KC_DOWN)
                outputs := h.outputs ++ [SWAction.unregisterCode KC_DOWN] }, true)
    else if st = SW_SELECTED then
      if keycode = KC_ESC then
        (SW_NONE, { h with outputs := h.outputs ++ [SWAction.tapCode KC_RGHT] }, false)
      else (SW_NONE, h, true)
    else (SW_NONE, h, true)

/-- Run a list of (keycode, pressed) events through `process_select_word`. -/
def swRun (selKeycode : Nat) (st : Nat) (h : SWHost) :
    List (Nat × Bool) → Nat × SWHost
  | [] => (st, h)
  | (kc, pr) :: rest =>
    let r := processSelectWord selKeycode st h kc pr
    swRun selKeycode r.1 r.2.1 rest

/-- Keycode of the Select Word trigger key. -/
def SELWORD_KC : Nat := 0x7E02

/-! ### C8 -/

/-- C8, counterexample.  The claim quantifies over any unrelated key pressed
before the trigger is released.  Pressing `KC_LSFT` while the word selection
is held is passed through by the early shift-key exemption: the Ctrl+Shift
overlay (mods `0x03`) and the held `KC_RGHT` remain registered, so the
overlay is not "fully unregistered" as claimed. -/
theorem select_word_c8_counterexample :
    ¬ ((swRun SELWORD_KC SW_NONE ⟨0, 0, [], []⟩
          [(SELWORD_KC, true), (KC_LSFT, true)]).2.mods = 0 ∧
       (swRun SELWORD_KC SW_NONE ⟨0, 0, [], []⟩
          [(SELWORD_KC, true), (KC_LSFT, true)]).2.held = []) := by
  decide

theorem sw_trigger_word_eq (sel m o : Nat)
    (hsel1 : ¬ sel = KC_LSFT) (hsel2 : ¬ sel = KC_RSFT)
    (hns : (m ||| o).land MOD_MASK_SHIFT = 0) :
    processSelectWord sel SW_NONE ⟨m, o, [], []⟩ sel true
      = (SW_WORD,
         ⟨MOD_BIT_LCTL ||| MOD_BIT_LSFT, 0, [KC_RGHT],
          [SWAction.clearOneshotMods, SWAction.setMods MOD_BIT_LCTL,
           SWAction.sendReport, SWAction.tapCode KC_RGHT,
           SWAction.tapCode KC_LEFT, SWAction.registerMods MOD_BIT_LSFT,
           SWAction.registerCode KC_RGHT]⟩, false) := by
  unfold processSelectWord
  rw [if_neg (fun hc => hc.elim hsel1 hsel2), if_pos ⟨rfl, rfl⟩]
  dsimp only
  rw [if_pos hns, if_pos rfl]
  rfl

theorem sw_trigger_line_eq (sel m o : Nat)
    (hsel1 : ¬ sel = KC_LSFT) (hsel2 : ¬ sel = KC_RSFT)
    (hsh : ¬ (m ||| o).land MOD_MASK_SHIFT = 0) :
    processSelectWord sel SW_NONE ⟨m, o, [], []⟩ sel true
      = (SW_FIRST_LINE,
         ⟨m, 0, [],
          [SWAction.clearOneshotMods, SWAction.clearMods, SWAction.sendReport,
           SWAction.tapCode KC_HOME, SWAction.registerMods MOD_BIT_LSFT,
           SWAction.tapCode KC_END, SWAction.setMods m]⟩, false) := by
  unfold processSelectWord
  rw [if_neg (fun hc => hc.elim hsel1 hsel2), if_pos ⟨rfl, rfl⟩]
  dsimp only
  rw [if_neg hsh, if_pos rfl]
  rfl

theorem sw_trigger_extend_eq (sel : Nat) (st : Nat) (h : SWHost)
    (hsel1 : ¬ sel = KC_LSFT) (hsel2 : ¬ sel = KC_RSFT)
    (hsh : ¬ (h.mods ||| h.oneshot_mods).land MOD_MASK_SHIFT = 0)
    (hst : ¬ st = SW_NONE) :
    processSelectWord sel st h sel true
      = (SW_LINE,
         { h with oneshot_mods := 0
                  held := h.held ++ [KC_DOWN]
                  outputs := h.outputs ++
                    [SWAction.clearOneshotMods, SWAction.registerCode KC_DOWN] },
         false) := by
  unfold processSelectWord
  rw [if_neg (fun hc => hc.elim hsel1 hsel2), if_pos ⟨rfl, rfl⟩]
  dsimp only
  rw [if_neg hsh, if_neg hst]
  simp

theorem sw_other_from_word_eq (sel K : Nat) (h : SWHost) (pr : Bool)
    (hK1 : ¬ K = KC_LSFT) (hK2 : ¬ K = KC_RSFT)
    (hK3 : ¬ (K = sel ∧ pr = true)) :
    processSelectWord sel SW_WORD h K pr
      = (SW_SELECTED,
         { h with held := h.held.filter (fun kc => ¬ kc = KC_RGHT)
                  mods := andNot h.mods (MOD_BIT_LSFT ||| MOD_BIT_LCTL)
                  outputs := h.outputs ++
                    [SWAction.unregisterCode KC_RGHT,
                     SWAction.unregisterMods (MOD_BIT_LSFT ||| MOD_BIT_LCTL)] },
         true) := by
  unfold processSelectWord
  rw [if_neg (fun hc => hc.elim hK1 hK2), if_neg hK3, if_pos rfl]
  simp

theorem sw_other_from_first_line_eq (sel K : Nat) (h : SWHost) (pr : Bool)
    (hK1 : ¬ K = KC_LSFT) (hK2 : ¬ K = KC_RSFT)
    (hK3 : ¬ (K = sel ∧ pr = true)) :
    processSelectWord sel SW_FIRST_LINE h K pr = (SW_SELECTED, h, true) := by
  unfold processSelectWord
  rw [if_neg (fun hc => hc.elim hK1 hK2), if_neg hK3, if_neg (by decide),
    if_pos rfl]

theorem sw_other_from_line_eq (sel K : Nat) (h : SWHost) (pr : Bool)
    (hK1 : ¬ K = KC_LSFT) (hK2 : ¬ K = KC_RSFT)
    (hK3 : ¬ (K = sel ∧ pr = true)) :
    processSelectWord sel SW_LINE h K pr
      = (SW_SELECTED,
         { h with held := h.held.filter (fun kc => ¬ kc = KC_DOWN)
                  outputs := h.outputs ++ [SWAction.unregisterCode KC_DOWN] },
         true) := by
  unfold processSelectWord
  rw [if_neg (fun hc => hc.elim hK1 hK2), if_neg hK3, if_neg (by decide),
    if_neg (by decide), if_pos rfl]

/-- C8 (amended): pressing the selection trigger and then any unrelated key
other than the shift keys (which the handler deliberately ignores so shift
can modify the selection) fully unregisters the modifier overlay: after the
interrupting press, no macro-registered modifier remains (word selection
leaves the mod state empty; line selection restores exactly the user's own
mods) and no arrow key is left registered. -/
theorem select_word_c8_amended (sel K m o : Nat)
    (hsel1 : ¬ sel = KC_LSFT) (hsel2 : ¬ sel = KC_RSFT)
    (hK1 : ¬ K = KC_LSFT) (hK2 : ¬ K = KC_RSFT) (hK3 : ¬ K = sel) :
    ((m ||| o).land MOD_MASK_SHIFT = 0 →
      (swRun sel SW_NONE ⟨m, o, [], []⟩ [(sel, true), (K, true)]).2.mods = 0 ∧
      (swRun sel SW_NONE ⟨m, o, [], []⟩ [(sel, true), (K, true)]).2.held = []) ∧
    (¬ (m ||| o).land MOD_MASK_SHIFT = 0 →
      (swRun sel SW_NONE ⟨m, o, [], []⟩ [(sel, true), (K, true)]).2.mods = m ∧
      (swRun sel SW_NONE ⟨m, o, [], []⟩ [(sel, true), (K, true)]).2.held = []) ∧
    (¬ (m ||| o).land MOD_MASK_SHIFT = 0 → ¬ (m ||| 0).land MOD_MASK_SHIFT = 0 →
      (swRun sel SW_NONE ⟨m, o, [], []⟩
        [(sel, true), (sel, true), (K, true)]).2.mods = m ∧
      (swRun sel SW_NONE ⟨m, o, [], []⟩
        [(sel, true), (sel, true), (K, true)]).2.held = []) := by
  have hK3' : ∀ pr : Bool, ¬ (K = sel ∧ pr = true) := fun pr hc => hK3 hc.1
  refine ⟨?_, ?_, ?_⟩
  · intro hns
    simp only [swRun]
    rw [sw_trigger_word_eq sel m o hsel1 hsel2 hns]
    dsimp only
    rw [sw_other_from_word_eq sel K _ true hK1 hK2 (hK3' true)]
    exact ⟨by decide, by decide⟩
  · intro hsh
    simp only [swRun]
    rw [sw_trigger_line_eq sel m o hsel1 hsel2 hsh]
    dsimp only
    rw [sw_other_from_first_line_eq sel K _ true hK1 hK2 (hK3' true)]
    exact ⟨rfl, rfl⟩
  · intro hsh hshm
    simp only [swRun]
    rw [sw_trigger_line_eq sel m o hsel1 hsel2 hsh]
    dsimp only
    rw [sw_trigger_extend_eq sel SW_FIRST_LINE _ hsel1 hsel2 hshm (by decide)]
    dsimp only
    rw [sw_other_from_line_eq sel K _ true hK1 hK2 (hK3' true)]
    exact ⟨rfl, rfl⟩

/-- C8 witness: the amended theorem applied at the concrete trigger and
`KC_A` as the interrupting key, in the unshifted (word selection) case. -/
theorem select_word_c8_amended_witness :
    (swRun SELWORD_KC SW_NONE ⟨0, 0, [], []⟩
      [(SELWORD_KC, true), (KC_A, true)]).2.mods = 0 :=
  ((select_word_c8_amended SELWORD_KC KC_A 0 0 (by decide) (by decide)
    (by decide) (by decide) (by decide)).1 (by decide)).1

/-! ## Custom shift keys (custom_shift_keys.c) -/

/-- Sentinel index `kNone = 255`. -/
def cskNone : Nat := 255

/-- The static state inside `process_custom_shift_keys`. -/
structure CSKState where
  saved_mods : Nat
  active_key : Nat
  shifted : Bool
deriving DecidableEq, Repr

def cskInit : CSKState := ⟨0, cskNone, false⟩

inductive CSKAction where
  | unregisterCode16 (kc : Nat)
  | addMods (m : Nat)
  | delMods (m : Nat)
  | delOneshotMods (m : Nat)
  | registerCode16 (kc : Nat)
deriving DecidableEq, Repr

structure CSKHost where
  mods : Nat
  oneshot_mods : Nat
  outputs : List CSKAction
deriving DecidableEq, Repr

/-- `custom_shift_keycode()`: the output keycode of table entry
`active_key`, shifted or not. -/
def customShiftKeycode (keys : List (Nat × Nat)) (i : Nat) (shifted : Bool) : Nat :=
  let p := keys.getD i (0, 0)
  if shifted then p.2 else p.1

/-- `process_custom_shift_keys()`.  Returns the new state, the new host, and
whether the event falls through to default handling. -/
def processCustomShiftKeys (keys : List (Nat × Nat)) (s : CSKState)
    (h : CSKHost) (keycode : Nat) (pressed : Bool) :
    CSKState × CSKHost × Bool :=
  -- If a custom key is active, this event releases it or manipulates another
  -- key; either way the active key is released first.
  let sh :=
    if ¬ s.active_key = cskNone then
      ({ s with active_key := cskNone, saved_mods := 0, shifted := false },
       { h with mods := h.mods ||| s.saved_mods
                outputs := h.outputs ++
                  [CSKAction.unregisterCode16
                     (customShiftKeycode keys s.active_key s.shifted),
                   CSKAction.addMods s.saved_mods] })
    else (s, h)
  let s := sh.1
  let h := sh.2
  -- Search for a custom key with this keycode.
  match keys.findIdx? (fun p => p.1 == keycode) with
  | some i =>
    if pressed = true then
      if ¬ (h.mods ||| h.oneshot_mods).land MOD_MASK_SHIFT = 0 then
        -- Pressed with shift held: save real shift mods, delete shift.
        let saved := h.mods.land MOD_MASK_SHIFT
        let h := { h with mods := andNot h.mods MOD_MASK_SHIFT
                          oneshot_mods := andNot h.oneshot_mods MOD_MASK_SHIFT
                          outputs := h.outputs ++
                            [CSKAction.delMods MOD_MASK_SHIFT,
                             CSKAction.delOneshotMods MOD_MASK_SHIFT] }
        ({ s with saved_mods := saved, shifted := true, active_key := i },
         { h with outputs := h.outputs ++
             [CSKAction.registerCode16 (customShiftKeycode keys i true)] },
         false)
      else
        ({ s with shifted := false, active_key := i },
         { h with outputs := h.outputs ++
             [CSKAction.registerCode16 (customShiftKeycode keys i false)] },
         false)
    else (s, h, false)
  | none => (s, h, true)

def cskIsRegister (a : CSKAction) : Bool :=
  match a with
  | .registerCode16 _ => true
  | _ => false

def cskIsUnregister (a : CSKAction) : Bool :=
  match a with
  | .unregisterCode16 _ => true
  | _ => false

/-! ### C9 -/

/-- C9: at most one remapped key is active at a time.  On every event
processed while a remapped key is active, the handler first unregisters the
active key's output keycode and then restores the shift mods saved at its
press — these are the first two actions emitted, before any new
registration; afterwards at most one new key is registered and nothing else
is unregistered, and the resulting active key is either none or exactly the
table entry matched by the newly pressed keycode. -/
theorem custom_shift_c9 (keys : List (Nat × Nat)) (s : CSKState) (h : CSKHost)
    (keycode : Nat) (pressed : Bool)
    (hact : ¬ s.active_key = cskNone) :
    ((processCustomShiftKeys keys s h keycode pressed).2.1.outputs.drop
        h.outputs.length).take 2
      = [CSKAction.unregisterCode16 (customShiftKeycode keys s.active_key s.shifted),
         CSKAction.addMods s.saved_mods] ∧
    ((processCustomShiftKeys keys s h keycode pressed).2.1.outputs.drop
        (h.outputs.length + 2)).countP cskIsRegister ≤ 1 ∧
    ((processCustomShiftKeys keys s h keycode pressed).2.1.outputs.drop
        (h.outputs.length + 2)).countP cskIsUnregister = 0 ∧
    ((processCustomShiftKeys keys s h keycode pressed).1.active_key = cskNone ∨
      (pressed = true ∧ keys.findIdx? (fun p => p.1 == keycode)
        = some (processCustomShiftKeys keys s h keycode pressed).1.active_key)) := by
  have hlen : h.outputs.length + 2
      = (h.outputs ++
         [CSKAction.unregisterCode16 (customShiftKeycode keys s.active_key s.shifted),
          CSKAction.addMods s.saved_mods]).length := by
    simp
  have hdrop : ∀ (rest : List CSKAction),
      (h.outputs ++
        [CSKAction.unregisterCode16 (customShiftKeycode keys s.active_key s.shifted),
         CSKAction.addMods s.saved_mods] ++ rest).drop h.outputs.length
        = [CSKAction.unregisterCode16 (customShiftKeycode keys s.active_key s.shifted),
           CSKAction.addMods s.saved_mods] ++ rest := by
    intro rest
    rw [List.append_assoc, List.drop_left]
  have hdrop2 : ∀ (rest : List CSKAction),
      (h.outputs ++
        [CSKAction.unregisterCode16 (customShiftKeycode keys s.active_key s.shifted),
         CSKAction.addMods s.saved_mods] ++ rest).drop (h.outputs.length + 2)
        = rest := by
    intro rest
    rw [hlen, List.drop_left]
  have hnil : ∀ (l : List CSKAction), l = l ++ ([] : List CSKAction) := by
    intro l
    simp
  unfold processCustomShiftKeys
  rw [if_pos hact]
  dsimp only
  rcases hfind : keys.findIdx? (fun p => p.1 == keycode) with _ | i
  · rw [hfind]
    dsimp only
    refine ⟨?_, ?_, ?_, Or.inl rfl⟩
    · rw [hnil (h.outputs ++ _), hdrop]
      rfl
    · rw [hnil (h.outputs ++ _), hdrop2]
      decide
    · rw [hnil (h.outputs ++ _), hdrop2]
      decide
  · rw [hfind]
    dsimp only
    by_cases hp : pressed = true
    · rw [if_pos hp]
      by_cases hsh : ¬ ((h.mods ||| s.saved_mods) |||
          h.oneshot_mods).land MOD_MASK_SHIFT = 0
      · rw [if_pos hsh]
        dsimp only
        rw [List.append_assoc (h.outputs ++ _)]
        refine ⟨?_, ?_, ?_, Or.inr ⟨hp, rfl⟩⟩
        · rw [hdrop]
          rfl
        · rw [hdrop2]
          simp [cskIsRegister, cskIsUnregister]
        · rw [hdrop2]
          simp [cskIsRegister, cskIsUnregister]
      · rw [if_neg hsh]
        dsimp only
        refine ⟨?_, ?_, ?_, Or.inr ⟨hp, rfl⟩⟩
        · rw [hdrop]
          rfl
        · rw [hdrop2]
          simp [cskIsRegister, cskIsUnregister]
        · rw [hdrop2]
          simp [cskIsRegister, cskIsUnregister]
    · rw [if_neg hp]
      dsimp only
      refine ⟨?_, ?_, ?_, Or.inl rfl⟩
      · rw [hnil (h.outputs ++ _), hdrop]
        rfl
      · rw [hnil (h.outputs ++ _), hdrop2]
        decide
      · rw [hnil (h.outputs ++ _), hdrop2]
        decide

/-- C9 witness: with the table `[(KC_DOT, KC_EXLM)]` and entry 0 active,
pressing `KC_DOT` again first emits the unregister of the active output and
the restore of the saved mods. -/
theorem custom_shift_c9_witness :
    ((processCustomShiftKeys [(KC_DOT, KC_EXLM)] ⟨0, 0, false⟩ ⟨0, 0, []⟩
        KC_DOT true).2.1.outputs.drop 0).take 2
      = [CSKAction.unregisterCode16
           (customShiftKeycode [(KC_DOT, KC_EXLM)] 0 false),
         CSKAction.addMods 0] :=
  (custom_shift_c9 [(KC_DOT, KC_EXLM)] ⟨0, 0, false⟩ ⟨0, 0, []⟩ KC_DOT true
    (by decide)).1

end QmkKeymap
